import Mathlib

/-!
# gll loader (`loader.cpp`)

A shallow embedding of the symbol resolver `getProcAddress` and of the version
cascade `load_gl_1_0 … load_gl_4_6_comp`, `Load`, followed by the properties
established for them.

Conventions of the embedding:

* a value of the C++ type `int` is an integer of the 32-bit two's-complement
  range, and `+` on `int` reduces the exact sum into that range, as the
  machines the loader targets do (the C++ standard leaves a sum outside the
  range undefined);
* the 23 module loaders are declared but not defined in `loader.cpp`; they are
  a parameter `E` of every aggregator, each one a function from the
  function-pointer storage to a returned `int` and the storage it leaves;
* the C++ standard leaves to the compiler which operand of `a() + b()` is
  evaluated first; the definitions of the first part take the operands in
  source order, left before right, and the section on the order of evaluation
  embeds the same bodies with the order as a parameter;
* a function body is a list of statements; executing `return e;` ends the body.
-/

namespace gll

/-! ## The type `int` -/

/-- Least value of `int`. -/
def INT_MIN : Int := -2147483648

/-- Greatest value of `int`. -/
def INT_MAX : Int := 2147483647

/-- Reduction of an exact integer into the two's-complement range of `int`. -/
def wrapInt (z : Int) : Int := (z + 2147483648) % 4294967296 - 2147483648

/-- Values of the C++ type `int`. -/
def CInt : Type := { z : Int // INT_MIN ≤ z ∧ z ≤ INT_MAX }

/-- Addition of two `int` values. -/
def CInt.add (a b : CInt) : CInt :=
  ⟨wrapInt (a.val + b.val), by unfold wrapInt INT_MIN INT_MAX; omega⟩

instance : Add CInt := ⟨CInt.add⟩

/-- The `int` holding the integer `z`, reduced into range. -/
def CInt.ofInt (z : Int) : CInt :=
  ⟨wrapInt z, by unfold wrapInt INT_MIN INT_MAX; omega⟩

/-! ## The symbol resolver -/

/-- A value of `typedef void(*ProcAddress)();`, as the unsigned number its
address bits spell. `nullptr` is the address `0`. -/
abbrev ProcAddress : Type := Nat

/-- The null pointer. -/
def nullptr : ProcAddress := 0

/-- The cast `(std::ptrdiff_t)ptr` on a machine whose pointers have `w` bits:
the address bits read as a signed two's-complement integer. -/
def toPtrdiff (w : Nat) (ptr : ProcAddress) : Int :=
  if ptr < 2 ^ (w - 1) then (ptr : Int) else (ptr : Int) - 2 ^ w

namespace win32

/-- The resolver `getProcAddress` compiled under `_WIN32`. The driver query
`wglGetProcAddress` is external and is a parameter. -/
def getProcAddress (w : Nat) (wglGetProcAddress : String → ProcAddress)
    (name : String) : ProcAddress :=
  let ptr := wglGetProcAddress name
  let rv := toPtrdiff w ptr
  if rv ≥ -1 ∧ rv ≤ 3 then
    nullptr
  else
    ptr

end win32

namespace glx

/-- The resolver `getProcAddress` compiled without `_WIN32`. The driver query
`glXGetProcAddress` is external and is a parameter. -/
def getProcAddress (glXGetProcAddress : String → ProcAddress) (name : String) :
    ProcAddress :=
  glXGetProcAddress name

end glx

/-! ## Module loaders (declared in `loader.cpp`, defined elsewhere) -/

/-- The 23 module loaders declared at the top of `loader.cpp`. -/
inductive ModuleId
  | mod_gl_1_0
  | mod_gl_1_0_rem
  | mod_gl_1_1
  | mod_gl_1_1_rem
  | mod_gl_1_2
  | mod_gl_1_3
  | mod_gl_1_3_rem
  | mod_gl_1_4
  | mod_gl_1_4_rem
  | mod_gl_1_5
  | mod_gl_2_0
  | mod_gl_2_1
  | mod_gl_3_0
  | mod_gl_3_1
  | mod_gl_3_2
  | mod_gl_3_3
  | mod_gl_4_0
  | mod_gl_4_1
  | mod_gl_4_2
  | mod_gl_4_3
  | mod_gl_4_4
  | mod_gl_4_5
  | mod_gl_4_6
  deriving DecidableEq

/-- The outcome of calling a function of type `int ()` from storage `s`: the
returned `int` and the storage left behind, or `none` when the call yields no
value. `typedef int (LoadFunction)();` -/
def LoadFunction (σ : Type) : Type := σ → Option (CInt × σ)

/-- The externally defined module loaders: each one, called on a storage,
returns an `int` and leaves a storage. -/
def Env (σ : Type) : Type := ModuleId → σ → CInt × σ

/-- The call of the external module loader `m`. -/
def callModule {σ : Type} (E : Env σ) (m : ModuleId) : LoadFunction σ :=
  fun s => some (E m s)

/-- The expression `a() + b()` with its operands evaluated in source order: `a`
is called, then `b` on the storage `a` left, and the two returned values are
added as `int`s. `ordered.LoadFunction.add` has the order as a parameter. -/
def LoadFunction.add {σ : Type} (a b : LoadFunction σ) : LoadFunction σ :=
  fun s =>
    match a s with
    | none => none
    | some ra =>
      match b ra.2 with
      | none => none
      | some rb => some (ra.1 + rb.1, rb.2)

instance {σ : Type} : Add (LoadFunction σ) := ⟨LoadFunction.add⟩

/-- The two statement forms that occur in the bodies of `loader.cpp`. -/
inductive Stmt (σ : Type)
  | ret (e : LoadFunction σ)
  | expr (e : LoadFunction σ)

/-- Execution of a function body. `return e;` evaluates `e` and ends the body
with its value; `e;` evaluates `e`, drops the value and goes on; a body that
runs to its end without `return` yields no value. -/
def body {σ : Type} : List (Stmt σ) → LoadFunction σ
  | [], _ => none
  | Stmt.ret e :: _, s => e s
  | Stmt.expr e :: rest, s =>
    match e s with
    | none => none
    | some r => body rest r.2

section Loaders

variable {σ : Type} (E : Env σ)

def load_mod_gl_1_0 : LoadFunction σ := callModule E ModuleId.mod_gl_1_0
def load_mod_gl_1_0_rem : LoadFunction σ := callModule E ModuleId.mod_gl_1_0_rem
def load_mod_gl_1_1 : LoadFunction σ := callModule E ModuleId.mod_gl_1_1
def load_mod_gl_1_1_rem : LoadFunction σ := callModule E ModuleId.mod_gl_1_1_rem
def load_mod_gl_1_2 : LoadFunction σ := callModule E ModuleId.mod_gl_1_2
def load_mod_gl_1_3 : LoadFunction σ := callModule E ModuleId.mod_gl_1_3
def load_mod_gl_1_3_rem : LoadFunction σ := callModule E ModuleId.mod_gl_1_3_rem
def load_mod_gl_1_4 : LoadFunction σ := callModule E ModuleId.mod_gl_1_4
def load_mod_gl_1_4_rem : LoadFunction σ := callModule E ModuleId.mod_gl_1_4_rem
def load_mod_gl_1_5 : LoadFunction σ := callModule E ModuleId.mod_gl_1_5
def load_mod_gl_2_0 : LoadFunction σ := callModule E ModuleId.mod_gl_2_0
def load_mod_gl_2_1 : LoadFunction σ := callModule E ModuleId.mod_gl_2_1
def load_mod_gl_3_0 : LoadFunction σ := callModule E ModuleId.mod_gl_3_0
def load_mod_gl_3_1 : LoadFunction σ := callModule E ModuleId.mod_gl_3_1
def load_mod_gl_3_2 : LoadFunction σ := callModule E ModuleId.mod_gl_3_2
def load_mod_gl_3_3 : LoadFunction σ := callModule E ModuleId.mod_gl_3_3
def load_mod_gl_4_0 : LoadFunction σ := callModule E ModuleId.mod_gl_4_0
def load_mod_gl_4_1 : LoadFunction σ := callModule E ModuleId.mod_gl_4_1
def load_mod_gl_4_2 : LoadFunction σ := callModule E ModuleId.mod_gl_4_2
def load_mod_gl_4_3 : LoadFunction σ := callModule E ModuleId.mod_gl_4_3
def load_mod_gl_4_4 : LoadFunction σ := callModule E ModuleId.mod_gl_4_4
def load_mod_gl_4_5 : LoadFunction σ := callModule E ModuleId.mod_gl_4_5
def load_mod_gl_4_6 : LoadFunction σ := callModule E ModuleId.mod_gl_4_6

/-! ## The version aggregators -/

def load_gl_1_0 : LoadFunction σ := body [
  Stmt.ret (load_mod_gl_1_0 E     +
            load_mod_gl_1_0_rem E)]

def load_gl_1_1 : LoadFunction σ := body [
  Stmt.ret (load_mod_gl_1_0 E     +
            load_mod_gl_1_0_rem E +
            load_mod_gl_1_1 E     +
            load_mod_gl_1_1_rem E)]

def load_gl_1_2 : LoadFunction σ := body [
  Stmt.ret (load_mod_gl_1_0 E     +
            load_mod_gl_1_0_rem E +
            load_mod_gl_1_1 E     +
            load_mod_gl_1_1_rem E +
            load_mod_gl_1_2 E)]

def load_gl_1_3 : LoadFunction σ := body [
  Stmt.ret (load_mod_gl_1_0 E     +
            load_mod_gl_1_0_rem E +
            load_mod_gl_1_1 E     +
            load_mod_gl_1_1_rem E +
            load_mod_gl_1_2 E     +
            load_mod_gl_1_3 E     +
            load_mod_gl_1_3_rem E)]

def load_gl_1_4 : LoadFunction σ := body [
  Stmt.ret (load_mod_gl_1_0 E     +
            load_mod_gl_1_0_rem E +
            load_mod_gl_1_1 E     +
            load_mod_gl_1_1_rem E +
            load_mod_gl_1_2 E     +
            load_mod_gl_1_3 E     +
            load_mod_gl_1_3_rem E +
            load_mod_gl_1_4 E     +
            load_mod_gl_1_4_rem E)]

def load_gl_1_5 : LoadFunction σ := body [
  Stmt.ret (load_mod_gl_1_0 E     +
            load_mod_gl_1_0_rem E +
            load_mod_gl_1_1 E     +
            load_mod_gl_1_1_rem E +
            load_mod_gl_1_2 E     +
            load_mod_gl_1_3 E     +
            load_mod_gl_1_3_rem E +
            load_mod_gl_1_4 E     +
            load_mod_gl_1_4_rem E +
            load_mod_gl_1_5 E)]

def load_gl_2_0 : LoadFunction σ := body [
  Stmt.ret (load_mod_gl_1_0 E     +
            load_mod_gl_1_0_rem E +
            load_mod_gl_1_1 E     +
            load_mod_gl_1_1_rem E +
            load_mod_gl_1_2 E     +
            load_mod_gl_1_3 E     +
            load_mod_gl_1_3_rem E +
            load_mod_gl_1_4 E     +
            load_mod_gl_1_4_rem E +
            load_mod_gl_1_5 E     +
            load_mod_gl_2_0 E)]

def load_gl_2_1 : LoadFunction σ := body [
  Stmt.ret (load_mod_gl_1_0 E     +
            load_mod_gl_1_0_rem E +
            load_mod_gl_1_1 E     +
            load_mod_gl_1_1_rem E +
            load_mod_gl_1_2 E     +
            load_mod_gl_1_3 E     +
            load_mod_gl_1_3_rem E +
            load_mod_gl_1_4 E     +
            load_mod_gl_1_4_rem E +
            load_mod_gl_1_5 E     +
            load_mod_gl_2_0 E     +
            load_mod_gl_2_1 E)]

def load_gl_3_0 : LoadFunction σ := body [
  Stmt.ret (load_mod_gl_1_0 E     +
            load_mod_gl_1_0_rem E +
            load_mod_gl_1_1 E     +
            load_mod_gl_1_1_rem E +
            load_mod_gl_1_2 E     +
            load_mod_gl_1_3 E     +
            load_mod_gl_1_3_rem E +
            load_mod_gl_1_4 E     +
            load_mod_gl_1_4_rem E +
            load_mod_gl_1_5 E     +
            load_mod_gl_2_0 E     +
            load_mod_gl_2_1 E     +
            load_mod_gl_3_0 E)]

def load_gl_3_1 : LoadFunction σ := body [
  Stmt.ret (load_mod_gl_1_0 E     +
            load_mod_gl_1_1 E     +
            load_mod_gl_1_2 E     +
            load_mod_gl_1_3 E     +
            load_mod_gl_1_4 E     +
            load_mod_gl_1_5 E     +
            load_mod_gl_2_0 E     +
            load_mod_gl_2_1 E     +
            load_mod_gl_3_0 E     +
            load_mod_gl_3_1 E)]

def load_gl_3_1_comp : LoadFunction σ := body [
  Stmt.ret (load_mod_gl_1_0 E     +
            load_mod_gl_1_0_rem E +
            load_mod_gl_1_1 E     +
            load_mod_gl_1_1_rem E +
            load_mod_gl_1_2 E     +
            load_mod_gl_1_3 E     +
            load_mod_gl_1_3_rem E +
            load_mod_gl_1_4 E     +
            load_mod_gl_1_4_rem E +
            load_mod_gl_1_5 E     +
            load_mod_gl_2_0 E     +
            load_mod_gl_2_1 E     +
            load_mod_gl_3_0 E     +
            load_mod_gl_3_1 E)]

def load_gl_3_2 : LoadFunction σ := body [
  Stmt.ret (load_mod_gl_1_0 E     +
            load_mod_gl_1_1 E     +
            load_mod_gl_1_2 E     +
            load_mod_gl_1_3 E     +
            load_mod_gl_1_4 E     +
            load_mod_gl_1_5 E     +
            load_mod_gl_2_0 E     +
            load_mod_gl_2_1 E     +
            load_mod_gl_3_0 E     +
            load_mod_gl_3_1 E     +
            load_mod_gl_3_2 E)]

def load_gl_3_2_comp : LoadFunction σ := body [
  Stmt.ret (load_mod_gl_1_0 E     +
            load_mod_gl_1_0_rem E +
            load_mod_gl_1_1 E     +
            load_mod_gl_1_1_rem E +
            load_mod_gl_1_2 E     +
            load_mod_gl_1_3 E     +
            load_mod_gl_1_3_rem E +
            load_mod_gl_1_4 E     +
            load_mod_gl_1_4_rem E +
            load_mod_gl_1_5 E     +
            load_mod_gl_2_0 E     +
            load_mod_gl_2_1 E     +
            load_mod_gl_3_0 E     +
            load_mod_gl_3_1 E     +
            load_mod_gl_3_2 E)]

def load_gl_3_3 : LoadFunction σ := body [
  Stmt.ret (load_mod_gl_1_0 E     +
            load_mod_gl_1_1 E     +
            load_mod_gl_1_2 E     +
            load_mod_gl_1_3 E     +
            load_mod_gl_1_4 E     +
            load_mod_gl_1_5 E     +
            load_mod_gl_2_0 E     +
            load_mod_gl_2_1 E     +
            load_mod_gl_3_0 E     +
            load_mod_gl_3_1 E     +
            load_mod_gl_3_2 E     +
            load_mod_gl_3_3 E)]

def load_gl_3_3_comp : LoadFunction σ := body [
  Stmt.ret (load_mod_gl_1_0 E     +
            load_mod_gl_1_0_rem E +
            load_mod_gl_1_1 E     +
            load_mod_gl_1_1_rem E +
            load_mod_gl_1_2 E     +
            load_mod_gl_1_3 E     +
            load_mod_gl_1_3_rem E +
            load_mod_gl_1_4 E     +
            load_mod_gl_1_4_rem E +
            load_mod_gl_1_5 E     +
            load_mod_gl_2_0 E     +
            load_mod_gl_2_1 E     +
            load_mod_gl_3_0 E     +
            load_mod_gl_3_1 E     +
            load_mod_gl_3_2 E     +
            load_mod_gl_3_3 E)]

def load_gl_4_0 : LoadFunction σ := body [
  Stmt.ret (load_mod_gl_1_0 E     +
            load_mod_gl_1_1 E     +
            load_mod_gl_1_2 E     +
            load_mod_gl_1_3 E     +
            load_mod_gl_1_4 E     +
            load_mod_gl_1_5 E     +
            load_mod_gl_2_0 E     +
            load_mod_gl_2_1 E     +
            load_mod_gl_3_0 E     +
            load_mod_gl_3_1 E     +
            load_mod_gl_3_2 E     +
            load_mod_gl_3_3 E     +
            load_mod_gl_4_0 E)]

def load_gl_4_0_comp : LoadFunction σ := body [
  Stmt.ret (load_mod_gl_1_0 E     +
            load_mod_gl_1_0_rem E +
            load_mod_gl_1_1 E     +
            load_mod_gl_1_1_rem E +
            load_mod_gl_1_2 E     +
            load_mod_gl_1_3 E     +
            load_mod_gl_1_3_rem E +
            load_mod_gl_1_4 E     +
            load_mod_gl_1_4_rem E +
            load_mod_gl_1_5 E     +
            load_mod_gl_2_0 E     +
            load_mod_gl_2_1 E     +
            load_mod_gl_3_0 E     +
            load_mod_gl_3_1 E     +
            load_mod_gl_3_2 E     +
            load_mod_gl_3_3 E     +
            load_mod_gl_4_0 E)]

def load_gl_4_1 : LoadFunction σ := body [
  Stmt.ret (load_mod_gl_1_0 E     +
            load_mod_gl_1_1 E     +
            load_mod_gl_1_2 E     +
            load_mod_gl_1_3 E     +
            load_mod_gl_1_4 E     +
            load_mod_gl_1_5 E     +
            load_mod_gl_2_0 E     +
            load_mod_gl_2_1 E     +
            load_mod_gl_3_0 E     +
            load_mod_gl_3_1 E     +
            load_mod_gl_3_2 E     +
            load_mod_gl_3_3 E     +
            load_mod_gl_4_0 E     +
            load_mod_gl_4_1 E)]

def load_gl_4_1_comp : LoadFunction σ := body [
  Stmt.ret (load_mod_gl_1_0 E     +
            load_mod_gl_1_0_rem E +
            load_mod_gl_1_1 E     +
            load_mod_gl_1_1_rem E +
            load_mod_gl_1_2 E     +
            load_mod_gl_1_3 E     +
            load_mod_gl_1_3_rem E +
            load_mod_gl_1_4 E     +
            load_mod_gl_1_4_rem E +
            load_mod_gl_1_5 E     +
            load_mod_gl_2_0 E     +
            load_mod_gl_2_1 E     +
            load_mod_gl_3_0 E     +
            load_mod_gl_3_1 E     +
            load_mod_gl_3_2 E     +
            load_mod_gl_3_3 E     +
            load_mod_gl_4_0 E     +
            load_mod_gl_4_1 E)]

def load_gl_4_2 : LoadFunction σ := body [
  Stmt.ret (load_mod_gl_1_0 E     +
            load_mod_gl_1_1 E     +
            load_mod_gl_1_2 E     +
            load_mod_gl_1_3 E     +
            load_mod_gl_1_4 E     +
            load_mod_gl_1_5 E     +
            load_mod_gl_2_0 E     +
            load_mod_gl_2_1 E     +
            load_mod_gl_3_0 E     +
            load_mod_gl_3_1 E     +
            load_mod_gl_3_2 E     +
            load_mod_gl_3_3 E     +
            load_mod_gl_4_0 E     +
            load_mod_gl_4_1 E     +
            load_mod_gl_4_2 E)]

def load_gl_4_2_comp : LoadFunction σ := body [
  Stmt.ret (load_mod_gl_1_0 E     +
            load_mod_gl_1_0_rem E +
            load_mod_gl_1_1 E     +
            load_mod_gl_1_1_rem E +
            load_mod_gl_1_2 E     +
            load_mod_gl_1_3 E     +
            load_mod_gl_1_3_rem E +
            load_mod_gl_1_4 E     +
            load_mod_gl_1_4_rem E +
            load_mod_gl_1_5 E     +
            load_mod_gl_2_0 E     +
            load_mod_gl_2_1 E     +
            load_mod_gl_3_0 E     +
            load_mod_gl_3_1 E     +
            load_mod_gl_3_2 E     +
            load_mod_gl_3_3 E     +
            load_mod_gl_4_0 E     +
            load_mod_gl_4_1 E     +
            load_mod_gl_4_2 E)]

def load_gl_4_3 : LoadFunction σ := body [
  Stmt.ret (load_mod_gl_1_0 E     +
            load_mod_gl_1_1 E     +
            load_mod_gl_1_2 E     +
            load_mod_gl_1_3 E     +
            load_mod_gl_1_4 E     +
            load_mod_gl_1_5 E     +
            load_mod_gl_2_0 E     +
            load_mod_gl_2_1 E     +
            load_mod_gl_3_0 E     +
            load_mod_gl_3_1 E     +
            load_mod_gl_3_2 E     +
            load_mod_gl_3_3 E     +
            load_mod_gl_4_0 E     +
            load_mod_gl_4_1 E     +
            load_mod_gl_4_2 E     +
            load_mod_gl_4_3 E)]

def load_gl_4_3_comp : LoadFunction σ := body [
  Stmt.ret (load_mod_gl_1_0 E     +
            load_mod_gl_1_0_rem E +
            load_mod_gl_1_1 E     +
            load_mod_gl_1_1_rem E +
            load_mod_gl_1_2 E     +
            load_mod_gl_1_3 E     +
            load_mod_gl_1_3_rem E +
            load_mod_gl_1_4 E     +
            load_mod_gl_1_4_rem E +
            load_mod_gl_1_5 E     +
            load_mod_gl_2_0 E     +
            load_mod_gl_2_1 E     +
            load_mod_gl_3_0 E     +
            load_mod_gl_3_1 E     +
            load_mod_gl_3_2 E     +
            load_mod_gl_3_3 E     +
            load_mod_gl_4_0 E     +
            load_mod_gl_4_1 E     +
            load_mod_gl_4_2 E     +
            load_mod_gl_4_3 E)]

def load_gl_4_4 : LoadFunction σ := body [
  Stmt.ret (load_mod_gl_1_0 E     +
            load_mod_gl_1_1 E     +
            load_mod_gl_1_2 E     +
            load_mod_gl_1_3 E     +
            load_mod_gl_1_4 E     +
            load_mod_gl_1_5 E     +
            load_mod_gl_2_0 E     +
            load_mod_gl_2_1 E     +
            load_mod_gl_3_0 E     +
            load_mod_gl_3_1 E     +
            load_mod_gl_3_2 E     +
            load_mod_gl_3_3 E     +
            load_mod_gl_4_0 E     +
            load_mod_gl_4_1 E     +
            load_mod_gl_4_2 E     +
            load_mod_gl_4_3 E     +
            load_mod_gl_4_4 E)]

def load_gl_4_4_comp : LoadFunction σ := body [
  Stmt.ret (load_mod_gl_1_0 E     +
            load_mod_gl_1_0_rem E +
            load_mod_gl_1_1 E     +
            load_mod_gl_1_1_rem E +
            load_mod_gl_1_2 E     +
            load_mod_gl_1_3 E     +
            load_mod_gl_1_3_rem E +
            load_mod_gl_1_4 E     +
            load_mod_gl_1_4_rem E +
            load_mod_gl_1_5 E     +
            load_mod_gl_2_0 E     +
            load_mod_gl_2_1 E     +
            load_mod_gl_3_0 E     +
            load_mod_gl_3_1 E     +
            load_mod_gl_3_2 E     +
            load_mod_gl_3_3 E     +
            load_mod_gl_4_0 E     +
            load_mod_gl_4_1 E     +
            load_mod_gl_4_2 E     +
            load_mod_gl_4_3 E     +
            load_mod_gl_4_4 E)]

def load_gl_4_5 : LoadFunction σ := body [
  Stmt.ret (load_mod_gl_1_0 E     +
            load_mod_gl_1_1 E     +
            load_mod_gl_1_2 E     +
            load_mod_gl_1_3 E     +
            load_mod_gl_1_4 E     +
            load_mod_gl_1_5 E     +
            load_mod_gl_2_0 E     +
            load_mod_gl_2_1 E     +
            load_mod_gl_3_0 E     +
            load_mod_gl_3_1 E     +
            load_mod_gl_3_2 E     +
            load_mod_gl_3_3 E     +
            load_mod_gl_4_0 E     +
            load_mod_gl_4_1 E     +
            load_mod_gl_4_2 E     +
            load_mod_gl_4_3 E     +
            load_mod_gl_4_4 E     +
            load_mod_gl_4_5 E)]

def load_gl_4_5_comp : LoadFunction σ := body [
  Stmt.ret (load_mod_gl_1_0 E     +
            load_mod_gl_1_0_rem E +
            load_mod_gl_1_1 E     +
            load_mod_gl_1_1_rem E +
            load_mod_gl_1_2 E     +
            load_mod_gl_1_3 E     +
            load_mod_gl_1_3_rem E +
            load_mod_gl_1_4 E     +
            load_mod_gl_1_4_rem E +
            load_mod_gl_1_5 E     +
            load_mod_gl_2_0 E     +
            load_mod_gl_2_1 E     +
            load_mod_gl_3_0 E     +
            load_mod_gl_3_1 E     +
            load_mod_gl_3_2 E     +
            load_mod_gl_3_3 E     +
            load_mod_gl_4_0 E     +
            load_mod_gl_4_1 E     +
            load_mod_gl_4_2 E     +
            load_mod_gl_4_3 E     +
            load_mod_gl_4_4 E     +
            load_mod_gl_4_5 E)]

def load_gl_4_6 : LoadFunction σ := body [
  Stmt.ret (load_mod_gl_1_0 E     +
            load_mod_gl_1_1 E     +
            load_mod_gl_1_2 E     +
            load_mod_gl_1_3 E     +
            load_mod_gl_1_4 E     +
            load_mod_gl_1_5 E     +
            load_mod_gl_2_0 E     +
            load_mod_gl_2_1 E     +
            load_mod_gl_3_0 E     +
            load_mod_gl_3_1 E     +
            load_mod_gl_3_2 E     +
            load_mod_gl_3_3 E     +
            load_mod_gl_4_0 E     +
            load_mod_gl_4_1 E     +
            load_mod_gl_4_2 E     +
            load_mod_gl_4_3 E     +
            load_mod_gl_4_4 E     +
            load_mod_gl_4_5 E),
  Stmt.expr (load_mod_gl_4_6 E)]

def load_gl_4_6_comp : LoadFunction σ := body [
  Stmt.ret (load_mod_gl_1_0 E     +
            load_mod_gl_1_0_rem E +
            load_mod_gl_1_1 E     +
            load_mod_gl_1_1_rem E +
            load_mod_gl_1_2 E     +
            load_mod_gl_1_3 E     +
            load_mod_gl_1_3_rem E +
            load_mod_gl_1_4 E     +
            load_mod_gl_1_4_rem E +
            load_mod_gl_1_5 E     +
            load_mod_gl_2_0 E     +
            load_mod_gl_2_1 E     +
            load_mod_gl_3_0 E     +
            load_mod_gl_3_1 E     +
            load_mod_gl_3_2 E     +
            load_mod_gl_3_3 E     +
            load_mod_gl_4_0 E     +
            load_mod_gl_4_1 E     +
            load_mod_gl_4_2 E     +
            load_mod_gl_4_3 E     +
            load_mod_gl_4_4 E     +
            load_mod_gl_4_5 E),
  Stmt.expr (load_mod_gl_4_6 E)]

/-- The entry point `Load`: loads all bindings for the active context and
returns the number of bindings that failed to load. -/
def Load : LoadFunction σ := body [
  Stmt.ret (load_gl_4_6_comp E)]

end Loaders

/-! ## Probe harness

Everything below is used to state and prove properties of the loaders above:
an index of the 29 aggregators, the version read off each identifier, a log of
the calls an execution makes, and mock module loaders.
-/

/-- A version number `(major, minor)`. -/
abbrev Version : Type := Nat × Nat

/-- Versions compare by major number, then by minor number. -/
def Version.lt (a b : Version) : Prop := a.1 < b.1 ∨ (a.1 = b.1 ∧ a.2 < b.2)

instance (a b : Version) : Decidable (Version.lt a b) := by
  unfold Version.lt; exact inferInstance

/-- Non-strict comparison of versions. -/
def Version.le (a b : Version) : Prop := a.1 < b.1 ∨ (a.1 = b.1 ∧ a.2 ≤ b.2)

instance (a b : Version) : Decidable (Version.le a b) := by
  unfold Version.le; exact inferInstance

/-- The version in the identifier `load_mod_gl_<major>_<minor>[_rem]`. -/
def ModuleId.version : ModuleId → Version
  | ModuleId.mod_gl_1_0 => (1, 0)
  | ModuleId.mod_gl_1_0_rem => (1, 0)
  | ModuleId.mod_gl_1_1 => (1, 1)
  | ModuleId.mod_gl_1_1_rem => (1, 1)
  | ModuleId.mod_gl_1_2 => (1, 2)
  | ModuleId.mod_gl_1_3 => (1, 3)
  | ModuleId.mod_gl_1_3_rem => (1, 3)
  | ModuleId.mod_gl_1_4 => (1, 4)
  | ModuleId.mod_gl_1_4_rem => (1, 4)
  | ModuleId.mod_gl_1_5 => (1, 5)
  | ModuleId.mod_gl_2_0 => (2, 0)
  | ModuleId.mod_gl_2_1 => (2, 1)
  | ModuleId.mod_gl_3_0 => (3, 0)
  | ModuleId.mod_gl_3_1 => (3, 1)
  | ModuleId.mod_gl_3_2 => (3, 2)
  | ModuleId.mod_gl_3_3 => (3, 3)
  | ModuleId.mod_gl_4_0 => (4, 0)
  | ModuleId.mod_gl_4_1 => (4, 1)
  | ModuleId.mod_gl_4_2 => (4, 2)
  | ModuleId.mod_gl_4_3 => (4, 3)
  | ModuleId.mod_gl_4_4 => (4, 4)
  | ModuleId.mod_gl_4_5 => (4, 5)
  | ModuleId.mod_gl_4_6 => (4, 6)

/-- Whether the identifier of the module loader ends in `_rem`. -/
def ModuleId.removed : ModuleId → Bool
  | ModuleId.mod_gl_1_0 => false
  | ModuleId.mod_gl_1_0_rem => true
  | ModuleId.mod_gl_1_1 => false
  | ModuleId.mod_gl_1_1_rem => true
  | ModuleId.mod_gl_1_2 => false
  | ModuleId.mod_gl_1_3 => false
  | ModuleId.mod_gl_1_3_rem => true
  | ModuleId.mod_gl_1_4 => false
  | ModuleId.mod_gl_1_4_rem => true
  | ModuleId.mod_gl_1_5 => false
  | ModuleId.mod_gl_2_0 => false
  | ModuleId.mod_gl_2_1 => false
  | ModuleId.mod_gl_3_0 => false
  | ModuleId.mod_gl_3_1 => false
  | ModuleId.mod_gl_3_2 => false
  | ModuleId.mod_gl_3_3 => false
  | ModuleId.mod_gl_4_0 => false
  | ModuleId.mod_gl_4_1 => false
  | ModuleId.mod_gl_4_2 => false
  | ModuleId.mod_gl_4_3 => false
  | ModuleId.mod_gl_4_4 => false
  | ModuleId.mod_gl_4_5 => false
  | ModuleId.mod_gl_4_6 => false

/-- The 29 version aggregators of `loader.cpp`. -/
inductive Aggregator
  | gl_1_0
  | gl_1_1
  | gl_1_2
  | gl_1_3
  | gl_1_4
  | gl_1_5
  | gl_2_0
  | gl_2_1
  | gl_3_0
  | gl_3_1
  | gl_3_1_comp
  | gl_3_2
  | gl_3_2_comp
  | gl_3_3
  | gl_3_3_comp
  | gl_4_0
  | gl_4_0_comp
  | gl_4_1
  | gl_4_1_comp
  | gl_4_2
  | gl_4_2_comp
  | gl_4_3
  | gl_4_3_comp
  | gl_4_4
  | gl_4_4_comp
  | gl_4_5
  | gl_4_5_comp
  | gl_4_6
  | gl_4_6_comp
  deriving DecidableEq

/-- The function of `loader.cpp` that an index stands for. -/
def Aggregator.run {σ : Type} (E : Env σ) : Aggregator → LoadFunction σ
  | Aggregator.gl_1_0 => load_gl_1_0 E
  | Aggregator.gl_1_1 => load_gl_1_1 E
  | Aggregator.gl_1_2 => load_gl_1_2 E
  | Aggregator.gl_1_3 => load_gl_1_3 E
  | Aggregator.gl_1_4 => load_gl_1_4 E
  | Aggregator.gl_1_5 => load_gl_1_5 E
  | Aggregator.gl_2_0 => load_gl_2_0 E
  | Aggregator.gl_2_1 => load_gl_2_1 E
  | Aggregator.gl_3_0 => load_gl_3_0 E
  | Aggregator.gl_3_1 => load_gl_3_1 E
  | Aggregator.gl_3_1_comp => load_gl_3_1_comp E
  | Aggregator.gl_3_2 => load_gl_3_2 E
  | Aggregator.gl_3_2_comp => load_gl_3_2_comp E
  | Aggregator.gl_3_3 => load_gl_3_3 E
  | Aggregator.gl_3_3_comp => load_gl_3_3_comp E
  | Aggregator.gl_4_0 => load_gl_4_0 E
  | Aggregator.gl_4_0_comp => load_gl_4_0_comp E
  | Aggregator.gl_4_1 => load_gl_4_1 E
  | Aggregator.gl_4_1_comp => load_gl_4_1_comp E
  | Aggregator.gl_4_2 => load_gl_4_2 E
  | Aggregator.gl_4_2_comp => load_gl_4_2_comp E
  | Aggregator.gl_4_3 => load_gl_4_3 E
  | Aggregator.gl_4_3_comp => load_gl_4_3_comp E
  | Aggregator.gl_4_4 => load_gl_4_4 E
  | Aggregator.gl_4_4_comp => load_gl_4_4_comp E
  | Aggregator.gl_4_5 => load_gl_4_5 E
  | Aggregator.gl_4_5_comp => load_gl_4_5_comp E
  | Aggregator.gl_4_6 => load_gl_4_6 E
  | Aggregator.gl_4_6_comp => load_gl_4_6_comp E

/-- The version in the identifier `load_gl_<major>_<minor>[_comp]`. -/
def Aggregator.version : Aggregator → Version
  | Aggregator.gl_1_0 => (1, 0)
  | Aggregator.gl_1_1 => (1, 1)
  | Aggregator.gl_1_2 => (1, 2)
  | Aggregator.gl_1_3 => (1, 3)
  | Aggregator.gl_1_4 => (1, 4)
  | Aggregator.gl_1_5 => (1, 5)
  | Aggregator.gl_2_0 => (2, 0)
  | Aggregator.gl_2_1 => (2, 1)
  | Aggregator.gl_3_0 => (3, 0)
  | Aggregator.gl_3_1 => (3, 1)
  | Aggregator.gl_3_1_comp => (3, 1)
  | Aggregator.gl_3_2 => (3, 2)
  | Aggregator.gl_3_2_comp => (3, 2)
  | Aggregator.gl_3_3 => (3, 3)
  | Aggregator.gl_3_3_comp => (3, 3)
  | Aggregator.gl_4_0 => (4, 0)
  | Aggregator.gl_4_0_comp => (4, 0)
  | Aggregator.gl_4_1 => (4, 1)
  | Aggregator.gl_4_1_comp => (4, 1)
  | Aggregator.gl_4_2 => (4, 2)
  | Aggregator.gl_4_2_comp => (4, 2)
  | Aggregator.gl_4_3 => (4, 3)
  | Aggregator.gl_4_3_comp => (4, 3)
  | Aggregator.gl_4_4 => (4, 4)
  | Aggregator.gl_4_4_comp => (4, 4)
  | Aggregator.gl_4_5 => (4, 5)
  | Aggregator.gl_4_5_comp => (4, 5)
  | Aggregator.gl_4_6 => (4, 6)
  | Aggregator.gl_4_6_comp => (4, 6)

/-- Whether the identifier of the aggregator ends in `_comp`. -/
def Aggregator.comp : Aggregator → Bool
  | Aggregator.gl_1_0 => false
  | Aggregator.gl_1_1 => false
  | Aggregator.gl_1_2 => false
  | Aggregator.gl_1_3 => false
  | Aggregator.gl_1_4 => false
  | Aggregator.gl_1_5 => false
  | Aggregator.gl_2_0 => false
  | Aggregator.gl_2_1 => false
  | Aggregator.gl_3_0 => false
  | Aggregator.gl_3_1 => false
  | Aggregator.gl_3_1_comp => true
  | Aggregator.gl_3_2 => false
  | Aggregator.gl_3_2_comp => true
  | Aggregator.gl_3_3 => false
  | Aggregator.gl_3_3_comp => true
  | Aggregator.gl_4_0 => false
  | Aggregator.gl_4_0_comp => true
  | Aggregator.gl_4_1 => false
  | Aggregator.gl_4_1_comp => true
  | Aggregator.gl_4_2 => false
  | Aggregator.gl_4_2_comp => true
  | Aggregator.gl_4_3 => false
  | Aggregator.gl_4_3_comp => true
  | Aggregator.gl_4_4 => false
  | Aggregator.gl_4_4_comp => true
  | Aggregator.gl_4_5 => false
  | Aggregator.gl_4_5_comp => true
  | Aggregator.gl_4_6 => false
  | Aggregator.gl_4_6_comp => true

/-- All aggregators, in the order of their definitions in `loader.cpp`. -/
def Aggregator.all : List Aggregator := [
  Aggregator.gl_1_0,
  Aggregator.gl_1_1,
  Aggregator.gl_1_2,
  Aggregator.gl_1_3,
  Aggregator.gl_1_4,
  Aggregator.gl_1_5,
  Aggregator.gl_2_0,
  Aggregator.gl_2_1,
  Aggregator.gl_3_0,
  Aggregator.gl_3_1,
  Aggregator.gl_3_1_comp,
  Aggregator.gl_3_2,
  Aggregator.gl_3_2_comp,
  Aggregator.gl_3_3,
  Aggregator.gl_3_3_comp,
  Aggregator.gl_4_0,
  Aggregator.gl_4_0_comp,
  Aggregator.gl_4_1,
  Aggregator.gl_4_1_comp,
  Aggregator.gl_4_2,
  Aggregator.gl_4_2_comp,
  Aggregator.gl_4_3,
  Aggregator.gl_4_3_comp,
  Aggregator.gl_4_4,
  Aggregator.gl_4_4_comp,
  Aggregator.gl_4_5,
  Aggregator.gl_4_5_comp,
  Aggregator.gl_4_6,
  Aggregator.gl_4_6_comp]


/-- A recorded call: the module loader invoked and the `int` it returned. -/
abbrev Call : Type := ModuleId × CInt

/-- The module loaders of `E`, instrumented: the storage carries a log, and
every call appends the module called and the value returned to it. -/
def traced {σ : Type} (E : Env σ) : Env (σ × List Call) :=
  fun m st => ((E m st.1).1, ((E m st.1).2, st.2 ++ [(m, (E m st.1).1)]))

/-- The log left by calling `f` on storage `s` with an empty log. -/
def logOf {σ : Type} (f : LoadFunction (σ × List Call)) (s : σ) : List Call :=
  match f (s, []) with
  | none => []
  | some r => r.2.2

/-- The calls to module loaders, in order, that aggregator `V` makes when run
on storage `s` with the module loaders `E`. -/
def Aggregator.calls {σ : Type} (E : Env σ) (V : Aggregator) (s : σ) : List Call :=
  logOf (V.run (traced E)) s

/-- The module loaders, in order, that aggregator `V` invokes when run on
storage `s` with the module loaders `E`. -/
def Aggregator.invoked {σ : Type} (E : Env σ) (V : Aggregator) (s : σ) :
    List ModuleId :=
  (V.calls E s).map Prod.fst

/-- The `int` zero. -/
def CInt.zero : CInt := ⟨0, by decide⟩

/-- Mock module loaders with fixed return values that leave the storage as it
is. -/
def mock (c : ModuleId → CInt) : Env Unit := fun m s => (c m, s)

/-- The module loaders invoked by `V` under the mock returning zero everywhere.
`invoked_eq_cascade` shows that the same list is invoked under every `E`. -/
def cascade (V : Aggregator) : List ModuleId :=
  V.invoked (mock fun _ => CInt.zero) ()

/-- Calls the module loaders of a list in order, adding each returned value to
the accumulator `acc`. -/
def callsFrom {σ : Type} (E : Env σ) (acc : CInt) : List ModuleId → σ → CInt × σ
  | [], s => (acc, s)
  | m :: ms, s => callsFrom E (acc + (E m s).1) ms (E m s).2

/-- Calls the module loaders of a list in order and returns the sum of the
values, accumulated from the left. -/
def runList {σ : Type} (E : Env σ) : List ModuleId → σ → Option (CInt × σ)
  | [], _ => none
  | m :: ms, s => some (callsFrom E (E m s).1 ms (E m s).2)

/-- The calls made when the module loaders of a list are called in order from
storage `s`. -/
def callLog {σ : Type} (E : Env σ) : List ModuleId → σ → List Call
  | [], _ => []
  | m :: ms, s => (m, (E m s).1) :: callLog E ms (E m s).2

/-- The exact integer sum of the values returned by the calls of a log. -/
def exactSum : List Call → Int
  | [] => 0
  | c :: cs => c.2.val + exactSum cs


/-- The value returned by a call, as an exact integer. -/
def retVal {σ : Type} (r : Option (CInt × σ)) : Option Int :=
  r.map fun x => x.1.val

/-- All module loaders, in the order of their declarations in `loader.cpp`. -/
def ModuleId.all : List ModuleId := [
  ModuleId.mod_gl_1_0,
  ModuleId.mod_gl_1_0_rem,
  ModuleId.mod_gl_1_1,
  ModuleId.mod_gl_1_1_rem,
  ModuleId.mod_gl_1_2,
  ModuleId.mod_gl_1_3,
  ModuleId.mod_gl_1_3_rem,
  ModuleId.mod_gl_1_4,
  ModuleId.mod_gl_1_4_rem,
  ModuleId.mod_gl_1_5,
  ModuleId.mod_gl_2_0,
  ModuleId.mod_gl_2_1,
  ModuleId.mod_gl_3_0,
  ModuleId.mod_gl_3_1,
  ModuleId.mod_gl_3_2,
  ModuleId.mod_gl_3_3,
  ModuleId.mod_gl_4_0,
  ModuleId.mod_gl_4_1,
  ModuleId.mod_gl_4_2,
  ModuleId.mod_gl_4_3,
  ModuleId.mod_gl_4_4,
  ModuleId.mod_gl_4_5,
  ModuleId.mod_gl_4_6]

/-- The order in which module loaders appear in a cascade: by version, and at
equal version the loader without `_rem` before the one with `_rem`. -/
def ModuleId.precedes (a b : ModuleId) : Prop :=
  Version.lt a.version b.version ∨
    (a.version = b.version ∧ a.removed = false ∧ b.removed = true)

instance (a b : ModuleId) : Decidable (ModuleId.precedes a b) := by
  unfold ModuleId.precedes; exact inferInstance

/-- The legacy and compatibility chain: `load_gl_1_0 … load_gl_3_0`, then
`load_gl_3_1_comp … load_gl_4_6_comp`. -/
def Aggregator.inCompChain (V : Aggregator) : Prop :=
  V.comp = true ∨ Version.le V.version (3, 0)

/-- The core chain: `load_gl_3_1 … load_gl_4_6`. -/
def Aggregator.inCoreChain (V : Aggregator) : Prop :=
  V.comp = false ∧ Version.le (3, 1) V.version

instance (V : Aggregator) : Decidable V.inCompChain := by
  unfold Aggregator.inCompChain; exact inferInstance

instance (V : Aggregator) : Decidable V.inCoreChain := by
  unfold Aggregator.inCoreChain; exact inferInstance

/-- Two aggregators of the same profile chain. -/
def sameChain (V₁ V₂ : Aggregator) : Prop :=
  (V₁.inCompChain ∧ V₂.inCompChain) ∨ (V₁.inCoreChain ∧ V₂.inCoreChain)

instance (V₁ V₂ : Aggregator) : Decidable (sameChain V₁ V₂) := by
  unfold sameChain; exact inferInstance

/-- Fixed return values: `k` for the module loader `m`, zero for the others. -/
def onlyAt (m : ModuleId) (k : CInt) : ModuleId → CInt :=
  fun x => if x = m then k else CInt.zero

/-- Fixed return values: `INT_MAX` for `load_mod_gl_1_0`, one for
`load_mod_gl_1_0_rem`, zero for the others. -/
def overflowCounts : ModuleId → CInt
  | ModuleId.mod_gl_1_0 => ⟨2147483647, by decide⟩
  | ModuleId.mod_gl_1_0_rem => ⟨1, by decide⟩
  | _ => CInt.zero

/-- Fixed return values: 0, 2, 5, 0 for the four module loaders called by
`load_gl_1_1`, zero for the others. -/
def counts0250 : ModuleId → CInt
  | ModuleId.mod_gl_1_0_rem => ⟨2, by decide⟩
  | ModuleId.mod_gl_1_1 => ⟨5, by decide⟩
  | _ => CInt.zero

/-- Module loaders whose storage is a counter of the calls made so far and
whose returned value is always one. -/
def countingEnv : Env Nat := fun _ n => (⟨1, by decide⟩, n + 1)

/-! ## The bodies with the order of evaluation as a parameter

C++ leaves to the compiler which operand of `+` is evaluated first. The
definitions above take the operands in source order. Here the same bodies are
embedded once more with the order `o` as a parameter of the expression type, so
that what depends on the order can be told from what does not.
-/

/-- The order in which the two operands of every `+` are evaluated. -/
inductive EvalOrder
  | leftFirst
  | rightFirst
  deriving DecidableEq

namespace ordered

/-- The outcome of calling a function of type `int ()`, as `gll.LoadFunction`,
in a program whose `+` evaluates its operands in the order `o`. -/
def LoadFunction (_o : EvalOrder) (σ : Type) : Type := σ → Option (CInt × σ)

/-- The call of the external module loader `m`. -/
def callModule {o : EvalOrder} {σ : Type} (E : Env σ) (m : ModuleId) :
    LoadFunction o σ :=
  fun s => some (E m s)

/-- The expression `a() + b()`. Under `leftFirst`, `a` is called, then `b` on
the storage `a` left; under `rightFirst`, `b` is called, then `a` on the
storage `b` left. In both cases the value is that of `a` plus that of `b`. -/
def LoadFunction.add {o : EvalOrder} {σ : Type} (a b : LoadFunction o σ) :
    LoadFunction o σ :=
  fun s =>
    match o with
    | EvalOrder.leftFirst =>
      match a s with
      | none => none
      | some ra =>
        match b ra.2 with
        | none => none
        | some rb => some (ra.1 + rb.1, rb.2)
    | EvalOrder.rightFirst =>
      match b s with
      | none => none
      | some rb =>
        match a rb.2 with
        | none => none
        | some ra => some (ra.1 + rb.1, ra.2)

instance {o : EvalOrder} {σ : Type} : Add (LoadFunction o σ) := ⟨LoadFunction.add⟩

/-- The two statement forms that occur in the bodies of `loader.cpp`. -/
inductive Stmt (o : EvalOrder) (σ : Type)
  | ret (e : LoadFunction o σ)
  | expr (e : LoadFunction o σ)

/-- Execution of a function body, as `gll.body`. -/
def body {o : EvalOrder} {σ : Type} : List (Stmt o σ) → LoadFunction o σ
  | [], _ => none
  | Stmt.ret e :: _, s => e s
  | Stmt.expr e :: rest, s =>
    match e s with
    | none => none
    | some r => body rest r.2

section Modules

variable {o : EvalOrder} {σ : Type} (E : Env σ)

def load_mod_gl_1_0 : LoadFunction o σ := callModule E ModuleId.mod_gl_1_0
def load_mod_gl_1_0_rem : LoadFunction o σ := callModule E ModuleId.mod_gl_1_0_rem
def load_mod_gl_1_1 : LoadFunction o σ := callModule E ModuleId.mod_gl_1_1
def load_mod_gl_1_1_rem : LoadFunction o σ := callModule E ModuleId.mod_gl_1_1_rem
def load_mod_gl_1_2 : LoadFunction o σ := callModule E ModuleId.mod_gl_1_2
def load_mod_gl_1_3 : LoadFunction o σ := callModule E ModuleId.mod_gl_1_3
def load_mod_gl_1_3_rem : LoadFunction o σ := callModule E ModuleId.mod_gl_1_3_rem
def load_mod_gl_1_4 : LoadFunction o σ := callModule E ModuleId.mod_gl_1_4
def load_mod_gl_1_4_rem : LoadFunction o σ := callModule E ModuleId.mod_gl_1_4_rem
def load_mod_gl_1_5 : LoadFunction o σ := callModule E ModuleId.mod_gl_1_5
def load_mod_gl_2_0 : LoadFunction o σ := callModule E ModuleId.mod_gl_2_0
def load_mod_gl_2_1 : LoadFunction o σ := callModule E ModuleId.mod_gl_2_1
def load_mod_gl_3_0 : LoadFunction o σ := callModule E ModuleId.mod_gl_3_0
def load_mod_gl_3_1 : LoadFunction o σ := callModule E ModuleId.mod_gl_3_1
def load_mod_gl_3_2 : LoadFunction o σ := callModule E ModuleId.mod_gl_3_2
def load_mod_gl_3_3 : LoadFunction o σ := callModule E ModuleId.mod_gl_3_3
def load_mod_gl_4_0 : LoadFunction o σ := callModule E ModuleId.mod_gl_4_0
def load_mod_gl_4_1 : LoadFunction o σ := callModule E ModuleId.mod_gl_4_1
def load_mod_gl_4_2 : LoadFunction o σ := callModule E ModuleId.mod_gl_4_2
def load_mod_gl_4_3 : LoadFunction o σ := callModule E ModuleId.mod_gl_4_3
def load_mod_gl_4_4 : LoadFunction o σ := callModule E ModuleId.mod_gl_4_4
def load_mod_gl_4_5 : LoadFunction o σ := callModule E ModuleId.mod_gl_4_5
def load_mod_gl_4_6 : LoadFunction o σ := callModule E ModuleId.mod_gl_4_6

end Modules

section Aggregators

variable (o : EvalOrder) {σ : Type} (E : Env σ)

def load_gl_1_0 : LoadFunction o σ := body [
  Stmt.ret (load_mod_gl_1_0 E     +
            load_mod_gl_1_0_rem E)]

def load_gl_1_1 : LoadFunction o σ := body [
  Stmt.ret (load_mod_gl_1_0 E     +
            load_mod_gl_1_0_rem E +
            load_mod_gl_1_1 E     +
            load_mod_gl_1_1_rem E)]

def load_gl_1_2 : LoadFunction o σ := body [
  Stmt.ret (load_mod_gl_1_0 E     +
            load_mod_gl_1_0_rem E +
            load_mod_gl_1_1 E     +
            load_mod_gl_1_1_rem E +
            load_mod_gl_1_2 E)]

def load_gl_1_3 : LoadFunction o σ := body [
  Stmt.ret (load_mod_gl_1_0 E     +
            load_mod_gl_1_0_rem E +
            load_mod_gl_1_1 E     +
            load_mod_gl_1_1_rem E +
            load_mod_gl_1_2 E     +
            load_mod_gl_1_3 E     +
            load_mod_gl_1_3_rem E)]

def load_gl_1_4 : LoadFunction o σ := body [
  Stmt.ret (load_mod_gl_1_0 E     +
            load_mod_gl_1_0_rem E +
            load_mod_gl_1_1 E     +
            load_mod_gl_1_1_rem E +
            load_mod_gl_1_2 E     +
            load_mod_gl_1_3 E     +
            load_mod_gl_1_3_rem E +
            load_mod_gl_1_4 E     +
            load_mod_gl_1_4_rem E)]

def load_gl_1_5 : LoadFunction o σ := body [
  Stmt.ret (load_mod_gl_1_0 E     +
            load_mod_gl_1_0_rem E +
            load_mod_gl_1_1 E     +
            load_mod_gl_1_1_rem E +
            load_mod_gl_1_2 E     +
            load_mod_gl_1_3 E     +
            load_mod_gl_1_3_rem E +
            load_mod_gl_1_4 E     +
            load_mod_gl_1_4_rem E +
            load_mod_gl_1_5 E)]

def load_gl_2_0 : LoadFunction o σ := body [
  Stmt.ret (load_mod_gl_1_0 E     +
            load_mod_gl_1_0_rem E +
            load_mod_gl_1_1 E     +
            load_mod_gl_1_1_rem E +
            load_mod_gl_1_2 E     +
            load_mod_gl_1_3 E     +
            load_mod_gl_1_3_rem E +
            load_mod_gl_1_4 E     +
            load_mod_gl_1_4_rem E +
            load_mod_gl_1_5 E     +
            load_mod_gl_2_0 E)]

def load_gl_2_1 : LoadFunction o σ := body [
  Stmt.ret (load_mod_gl_1_0 E     +
            load_mod_gl_1_0_rem E +
            load_mod_gl_1_1 E     +
            load_mod_gl_1_1_rem E +
            load_mod_gl_1_2 E     +
            load_mod_gl_1_3 E     +
            load_mod_gl_1_3_rem E +
            load_mod_gl_1_4 E     +
            load_mod_gl_1_4_rem E +
            load_mod_gl_1_5 E     +
            load_mod_gl_2_0 E     +
            load_mod_gl_2_1 E)]

def load_gl_3_0 : LoadFunction o σ := body [
  Stmt.ret (load_mod_gl_1_0 E     +
            load_mod_gl_1_0_rem E +
            load_mod_gl_1_1 E     +
            load_mod_gl_1_1_rem E +
            load_mod_gl_1_2 E     +
            load_mod_gl_1_3 E     +
            load_mod_gl_1_3_rem E +
            load_mod_gl_1_4 E     +
            load_mod_gl_1_4_rem E +
            load_mod_gl_1_5 E     +
            load_mod_gl_2_0 E     +
            load_mod_gl_2_1 E     +
            load_mod_gl_3_0 E)]

def load_gl_3_1 : LoadFunction o σ := body [
  Stmt.ret (load_mod_gl_1_0 E     +
            load_mod_gl_1_1 E     +
            load_mod_gl_1_2 E     +
            load_mod_gl_1_3 E     +
            load_mod_gl_1_4 E     +
            load_mod_gl_1_5 E     +
            load_mod_gl_2_0 E     +
            load_mod_gl_2_1 E     +
            load_mod_gl_3_0 E     +
            load_mod_gl_3_1 E)]

def load_gl_3_1_comp : LoadFunction o σ := body [
  Stmt.ret (load_mod_gl_1_0 E     +
            load_mod_gl_1_0_rem E +
            load_mod_gl_1_1 E     +
            load_mod_gl_1_1_rem E +
            load_mod_gl_1_2 E     +
            load_mod_gl_1_3 E     +
            load_mod_gl_1_3_rem E +
            load_mod_gl_1_4 E     +
            load_mod_gl_1_4_rem E +
            load_mod_gl_1_5 E     +
            load_mod_gl_2_0 E     +
            load_mod_gl_2_1 E     +
            load_mod_gl_3_0 E     +
            load_mod_gl_3_1 E)]

def load_gl_3_2 : LoadFunction o σ := body [
  Stmt.ret (load_mod_gl_1_0 E     +
            load_mod_gl_1_1 E     +
            load_mod_gl_1_2 E     +
            load_mod_gl_1_3 E     +
            load_mod_gl_1_4 E     +
            load_mod_gl_1_5 E     +
            load_mod_gl_2_0 E     +
            load_mod_gl_2_1 E     +
            load_mod_gl_3_0 E     +
            load_mod_gl_3_1 E     +
            load_mod_gl_3_2 E)]

def load_gl_3_2_comp : LoadFunction o σ := body [
  Stmt.ret (load_mod_gl_1_0 E     +
            load_mod_gl_1_0_rem E +
            load_mod_gl_1_1 E     +
            load_mod_gl_1_1_rem E +
            load_mod_gl_1_2 E     +
            load_mod_gl_1_3 E     +
            load_mod_gl_1_3_rem E +
            load_mod_gl_1_4 E     +
            load_mod_gl_1_4_rem E +
            load_mod_gl_1_5 E     +
            load_mod_gl_2_0 E     +
            load_mod_gl_2_1 E     +
            load_mod_gl_3_0 E     +
            load_mod_gl_3_1 E     +
            load_mod_gl_3_2 E)]

def load_gl_3_3 : LoadFunction o σ := body [
  Stmt.ret (load_mod_gl_1_0 E     +
            load_mod_gl_1_1 E     +
            load_mod_gl_1_2 E     +
            load_mod_gl_1_3 E     +
            load_mod_gl_1_4 E     +
            load_mod_gl_1_5 E     +
            load_mod_gl_2_0 E     +
            load_mod_gl_2_1 E     +
            load_mod_gl_3_0 E     +
            load_mod_gl_3_1 E     +
            load_mod_gl_3_2 E     +
            load_mod_gl_3_3 E)]

def load_gl_3_3_comp : LoadFunction o σ := body [
  Stmt.ret (load_mod_gl_1_0 E     +
            load_mod_gl_1_0_rem E +
            load_mod_gl_1_1 E     +
            load_mod_gl_1_1_rem E +
            load_mod_gl_1_2 E     +
            load_mod_gl_1_3 E     +
            load_mod_gl_1_3_rem E +
            load_mod_gl_1_4 E     +
            load_mod_gl_1_4_rem E +
            load_mod_gl_1_5 E     +
            load_mod_gl_2_0 E     +
            load_mod_gl_2_1 E     +
            load_mod_gl_3_0 E     +
            load_mod_gl_3_1 E     +
            load_mod_gl_3_2 E     +
            load_mod_gl_3_3 E)]

def load_gl_4_0 : LoadFunction o σ := body [
  Stmt.ret (load_mod_gl_1_0 E     +
            load_mod_gl_1_1 E     +
            load_mod_gl_1_2 E     +
            load_mod_gl_1_3 E     +
            load_mod_gl_1_4 E     +
            load_mod_gl_1_5 E     +
            load_mod_gl_2_0 E     +
            load_mod_gl_2_1 E     +
            load_mod_gl_3_0 E     +
            load_mod_gl_3_1 E     +
            load_mod_gl_3_2 E     +
            load_mod_gl_3_3 E     +
            load_mod_gl_4_0 E)]

def load_gl_4_0_comp : LoadFunction o σ := body [
  Stmt.ret (load_mod_gl_1_0 E     +
            load_mod_gl_1_0_rem E +
            load_mod_gl_1_1 E     +
            load_mod_gl_1_1_rem E +
            load_mod_gl_1_2 E     +
            load_mod_gl_1_3 E     +
            load_mod_gl_1_3_rem E +
            load_mod_gl_1_4 E     +
            load_mod_gl_1_4_rem E +
            load_mod_gl_1_5 E     +
            load_mod_gl_2_0 E     +
            load_mod_gl_2_1 E     +
            load_mod_gl_3_0 E     +
            load_mod_gl_3_1 E     +
            load_mod_gl_3_2 E     +
            load_mod_gl_3_3 E     +
            load_mod_gl_4_0 E)]

def load_gl_4_1 : LoadFunction o σ := body [
  Stmt.ret (load_mod_gl_1_0 E     +
            load_mod_gl_1_1 E     +
            load_mod_gl_1_2 E     +
            load_mod_gl_1_3 E     +
            load_mod_gl_1_4 E     +
            load_mod_gl_1_5 E     +
            load_mod_gl_2_0 E     +
            load_mod_gl_2_1 E     +
            load_mod_gl_3_0 E     +
            load_mod_gl_3_1 E     +
            load_mod_gl_3_2 E     +
            load_mod_gl_3_3 E     +
            load_mod_gl_4_0 E     +
            load_mod_gl_4_1 E)]

def load_gl_4_1_comp : LoadFunction o σ := body [
  Stmt.ret (load_mod_gl_1_0 E     +
            load_mod_gl_1_0_rem E +
            load_mod_gl_1_1 E     +
            load_mod_gl_1_1_rem E +
            load_mod_gl_1_2 E     +
            load_mod_gl_1_3 E     +
            load_mod_gl_1_3_rem E +
            load_mod_gl_1_4 E     +
            load_mod_gl_1_4_rem E +
            load_mod_gl_1_5 E     +
            load_mod_gl_2_0 E     +
            load_mod_gl_2_1 E     +
            load_mod_gl_3_0 E     +
            load_mod_gl_3_1 E     +
            load_mod_gl_3_2 E     +
            load_mod_gl_3_3 E     +
            load_mod_gl_4_0 E     +
            load_mod_gl_4_1 E)]

def load_gl_4_2 : LoadFunction o σ := body [
  Stmt.ret (load_mod_gl_1_0 E     +
            load_mod_gl_1_1 E     +
            load_mod_gl_1_2 E     +
            load_mod_gl_1_3 E     +
            load_mod_gl_1_4 E     +
            load_mod_gl_1_5 E     +
            load_mod_gl_2_0 E     +
            load_mod_gl_2_1 E     +
            load_mod_gl_3_0 E     +
            load_mod_gl_3_1 E     +
            load_mod_gl_3_2 E     +
            load_mod_gl_3_3 E     +
            load_mod_gl_4_0 E     +
            load_mod_gl_4_1 E     +
            load_mod_gl_4_2 E)]

def load_gl_4_2_comp : LoadFunction o σ := body [
  Stmt.ret (load_mod_gl_1_0 E     +
            load_mod_gl_1_0_rem E +
            load_mod_gl_1_1 E     +
            load_mod_gl_1_1_rem E +
            load_mod_gl_1_2 E     +
            load_mod_gl_1_3 E     +
            load_mod_gl_1_3_rem E +
            load_mod_gl_1_4 E     +
            load_mod_gl_1_4_rem E +
            load_mod_gl_1_5 E     +
            load_mod_gl_2_0 E     +
            load_mod_gl_2_1 E     +
            load_mod_gl_3_0 E     +
            load_mod_gl_3_1 E     +
            load_mod_gl_3_2 E     +
            load_mod_gl_3_3 E     +
            load_mod_gl_4_0 E     +
            load_mod_gl_4_1 E     +
            load_mod_gl_4_2 E)]

def load_gl_4_3 : LoadFunction o σ := body [
  Stmt.ret (load_mod_gl_1_0 E     +
            load_mod_gl_1_1 E     +
            load_mod_gl_1_2 E     +
            load_mod_gl_1_3 E     +
            load_mod_gl_1_4 E     +
            load_mod_gl_1_5 E     +
            load_mod_gl_2_0 E     +
            load_mod_gl_2_1 E     +
            load_mod_gl_3_0 E     +
            load_mod_gl_3_1 E     +
            load_mod_gl_3_2 E     +
            load_mod_gl_3_3 E     +
            load_mod_gl_4_0 E     +
            load_mod_gl_4_1 E     +
            load_mod_gl_4_2 E     +
            load_mod_gl_4_3 E)]

def load_gl_4_3_comp : LoadFunction o σ := body [
  Stmt.ret (load_mod_gl_1_0 E     +
            load_mod_gl_1_0_rem E +
            load_mod_gl_1_1 E     +
            load_mod_gl_1_1_rem E +
            load_mod_gl_1_2 E     +
            load_mod_gl_1_3 E     +
            load_mod_gl_1_3_rem E +
            load_mod_gl_1_4 E     +
            load_mod_gl_1_4_rem E +
            load_mod_gl_1_5 E     +
            load_mod_gl_2_0 E     +
            load_mod_gl_2_1 E     +
            load_mod_gl_3_0 E     +
            load_mod_gl_3_1 E     +
            load_mod_gl_3_2 E     +
            load_mod_gl_3_3 E     +
            load_mod_gl_4_0 E     +
            load_mod_gl_4_1 E     +
            load_mod_gl_4_2 E     +
            load_mod_gl_4_3 E)]

def load_gl_4_4 : LoadFunction o σ := body [
  Stmt.ret (load_mod_gl_1_0 E     +
            load_mod_gl_1_1 E     +
            load_mod_gl_1_2 E     +
            load_mod_gl_1_3 E     +
            load_mod_gl_1_4 E     +
            load_mod_gl_1_5 E     +
            load_mod_gl_2_0 E     +
            load_mod_gl_2_1 E     +
            load_mod_gl_3_0 E     +
            load_mod_gl_3_1 E     +
            load_mod_gl_3_2 E     +
            load_mod_gl_3_3 E     +
            load_mod_gl_4_0 E     +
            load_mod_gl_4_1 E     +
            load_mod_gl_4_2 E     +
            load_mod_gl_4_3 E     +
            load_mod_gl_4_4 E)]

def load_gl_4_4_comp : LoadFunction o σ := body [
  Stmt.ret (load_mod_gl_1_0 E     +
            load_mod_gl_1_0_rem E +
            load_mod_gl_1_1 E     +
            load_mod_gl_1_1_rem E +
            load_mod_gl_1_2 E     +
            load_mod_gl_1_3 E     +
            load_mod_gl_1_3_rem E +
            load_mod_gl_1_4 E     +
            load_mod_gl_1_4_rem E +
            load_mod_gl_1_5 E     +
            load_mod_gl_2_0 E     +
            load_mod_gl_2_1 E     +
            load_mod_gl_3_0 E     +
            load_mod_gl_3_1 E     +
            load_mod_gl_3_2 E     +
            load_mod_gl_3_3 E     +
            load_mod_gl_4_0 E     +
            load_mod_gl_4_1 E     +
            load_mod_gl_4_2 E     +
            load_mod_gl_4_3 E     +
            load_mod_gl_4_4 E)]

def load_gl_4_5 : LoadFunction o σ := body [
  Stmt.ret (load_mod_gl_1_0 E     +
            load_mod_gl_1_1 E     +
            load_mod_gl_1_2 E     +
            load_mod_gl_1_3 E     +
            load_mod_gl_1_4 E     +
            load_mod_gl_1_5 E     +
            load_mod_gl_2_0 E     +
            load_mod_gl_2_1 E     +
            load_mod_gl_3_0 E     +
            load_mod_gl_3_1 E     +
            load_mod_gl_3_2 E     +
            load_mod_gl_3_3 E     +
            load_mod_gl_4_0 E     +
            load_mod_gl_4_1 E     +
            load_mod_gl_4_2 E     +
            load_mod_gl_4_3 E     +
            load_mod_gl_4_4 E     +
            load_mod_gl_4_5 E)]

def load_gl_4_5_comp : LoadFunction o σ := body [
  Stmt.ret (load_mod_gl_1_0 E     +
            load_mod_gl_1_0_rem E +
            load_mod_gl_1_1 E     +
            load_mod_gl_1_1_rem E +
            load_mod_gl_1_2 E     +
            load_mod_gl_1_3 E     +
            load_mod_gl_1_3_rem E +
            load_mod_gl_1_4 E     +
            load_mod_gl_1_4_rem E +
            load_mod_gl_1_5 E     +
            load_mod_gl_2_0 E     +
            load_mod_gl_2_1 E     +
            load_mod_gl_3_0 E     +
            load_mod_gl_3_1 E     +
            load_mod_gl_3_2 E     +
            load_mod_gl_3_3 E     +
            load_mod_gl_4_0 E     +
            load_mod_gl_4_1 E     +
            load_mod_gl_4_2 E     +
            load_mod_gl_4_3 E     +
            load_mod_gl_4_4 E     +
            load_mod_gl_4_5 E)]

def load_gl_4_6 : LoadFunction o σ := body [
  Stmt.ret (load_mod_gl_1_0 E     +
            load_mod_gl_1_1 E     +
            load_mod_gl_1_2 E     +
            load_mod_gl_1_3 E     +
            load_mod_gl_1_4 E     +
            load_mod_gl_1_5 E     +
            load_mod_gl_2_0 E     +
            load_mod_gl_2_1 E     +
            load_mod_gl_3_0 E     +
            load_mod_gl_3_1 E     +
            load_mod_gl_3_2 E     +
            load_mod_gl_3_3 E     +
            load_mod_gl_4_0 E     +
            load_mod_gl_4_1 E     +
            load_mod_gl_4_2 E     +
            load_mod_gl_4_3 E     +
            load_mod_gl_4_4 E     +
            load_mod_gl_4_5 E),
  Stmt.expr (load_mod_gl_4_6 E)]

def load_gl_4_6_comp : LoadFunction o σ := body [
  Stmt.ret (load_mod_gl_1_0 E     +
            load_mod_gl_1_0_rem E +
            load_mod_gl_1_1 E     +
            load_mod_gl_1_1_rem E +
            load_mod_gl_1_2 E     +
            load_mod_gl_1_3 E     +
            load_mod_gl_1_3_rem E +
            load_mod_gl_1_4 E     +
            load_mod_gl_1_4_rem E +
            load_mod_gl_1_5 E     +
            load_mod_gl_2_0 E     +
            load_mod_gl_2_1 E     +
            load_mod_gl_3_0 E     +
            load_mod_gl_3_1 E     +
            load_mod_gl_3_2 E     +
            load_mod_gl_3_3 E     +
            load_mod_gl_4_0 E     +
            load_mod_gl_4_1 E     +
            load_mod_gl_4_2 E     +
            load_mod_gl_4_3 E     +
            load_mod_gl_4_4 E     +
            load_mod_gl_4_5 E),
  Stmt.expr (load_mod_gl_4_6 E)]

end Aggregators

/-- The function of `loader.cpp` that an index stands for, compiled with the
evaluation order `o`. -/
def run (o : EvalOrder) {σ : Type} (E : Env σ) : Aggregator → LoadFunction o σ
  | Aggregator.gl_1_0 => load_gl_1_0 o E
  | Aggregator.gl_1_1 => load_gl_1_1 o E
  | Aggregator.gl_1_2 => load_gl_1_2 o E
  | Aggregator.gl_1_3 => load_gl_1_3 o E
  | Aggregator.gl_1_4 => load_gl_1_4 o E
  | Aggregator.gl_1_5 => load_gl_1_5 o E
  | Aggregator.gl_2_0 => load_gl_2_0 o E
  | Aggregator.gl_2_1 => load_gl_2_1 o E
  | Aggregator.gl_3_0 => load_gl_3_0 o E
  | Aggregator.gl_3_1 => load_gl_3_1 o E
  | Aggregator.gl_3_1_comp => load_gl_3_1_comp o E
  | Aggregator.gl_3_2 => load_gl_3_2 o E
  | Aggregator.gl_3_2_comp => load_gl_3_2_comp o E
  | Aggregator.gl_3_3 => load_gl_3_3 o E
  | Aggregator.gl_3_3_comp => load_gl_3_3_comp o E
  | Aggregator.gl_4_0 => load_gl_4_0 o E
  | Aggregator.gl_4_0_comp => load_gl_4_0_comp o E
  | Aggregator.gl_4_1 => load_gl_4_1 o E
  | Aggregator.gl_4_1_comp => load_gl_4_1_comp o E
  | Aggregator.gl_4_2 => load_gl_4_2 o E
  | Aggregator.gl_4_2_comp => load_gl_4_2_comp o E
  | Aggregator.gl_4_3 => load_gl_4_3 o E
  | Aggregator.gl_4_3_comp => load_gl_4_3_comp o E
  | Aggregator.gl_4_4 => load_gl_4_4 o E
  | Aggregator.gl_4_4_comp => load_gl_4_4_comp o E
  | Aggregator.gl_4_5 => load_gl_4_5 o E
  | Aggregator.gl_4_5_comp => load_gl_4_5_comp o E
  | Aggregator.gl_4_6 => load_gl_4_6 o E
  | Aggregator.gl_4_6_comp => load_gl_4_6_comp o E

/-- The calls to module loaders, in order, that aggregator `V` makes when
compiled with the evaluation order `o` and run on storage `s` with the module
loaders `E`: the log left by the instrumented module loaders. -/
def calls (o : EvalOrder) {σ : Type} (E : Env σ) (V : Aggregator) (s : σ) :
    List Call :=
  match run o (traced E) V (s, []) with
  | none => []
  | some r => r.2.2

/-- The module loaders, in order, that aggregator `V` invokes when compiled
with the evaluation order `o`. -/
def invoked (o : EvalOrder) {σ : Type} (E : Env σ) (V : Aggregator) (s : σ) :
    List ModuleId :=
  (calls o E V s).map Prod.fst

end ordered

theorem run_eq_runList {σ : Type} (E : Env σ) (V : Aggregator) (s : σ) :
    V.run E s = runList E (cascade V) s := by
  cases V <;> rfl

theorem wrapInt_of_range (z : Int) (h : INT_MIN ≤ z ∧ z ≤ INT_MAX) : wrapInt z = z := by
  unfold INT_MIN INT_MAX at h
  unfold wrapInt
  omega

theorem wrapInt_wrapInt_add (a b : Int) : wrapInt (wrapInt a + b) = wrapInt (a + b) := by
  unfold wrapInt
  omega

theorem CInt.add_val (a b : CInt) : (a + b).val = wrapInt (a.val + b.val) := rfl

theorem CInt.wrapInt_val (a : CInt) : wrapInt a.val = a.val :=
  wrapInt_of_range a.val a.property

theorem callLog_fst {σ : Type} (E : Env σ) (l : List ModuleId) :
    ∀ s : σ, (callLog E l s).map Prod.fst = l := by
  induction l with
  | nil => intro s; rfl
  | cons m ms ih => intro s; simp [callLog, ih]

theorem callsFrom_val {σ : Type} (E : Env σ) (l : List ModuleId) :
    ∀ (acc : CInt) (s : σ),
      (callsFrom E acc l s).1.val = wrapInt (acc.val + exactSum (callLog E l s)) := by
  induction l with
  | nil =>
    intro acc s
    simp [callsFrom, callLog, exactSum, CInt.wrapInt_val]
  | cons m ms ih =>
    intro acc s
    simp only [callsFrom, callLog, exactSum]
    rw [ih, CInt.add_val, wrapInt_wrapInt_add, add_assoc]

theorem callsFrom_traced {σ : Type} (E : Env σ) (l : List ModuleId) :
    ∀ (acc : CInt) (s : σ) (lg : List Call),
      callsFrom (traced E) acc l (s, lg) =
        ((callsFrom E acc l s).1, ((callsFrom E acc l s).2, lg ++ callLog E l s)) := by
  induction l with
  | nil => intro acc s lg; simp [callsFrom, callLog]
  | cons m ms ih =>
    intro acc s lg
    simp only [callsFrom, callLog, traced]
    rw [ih]
    simp

theorem callsFrom_congr {σ : Type} (E E' : Env σ) (l : List ModuleId)
    (h : ∀ m ∈ l, E m = E' m) :
    ∀ (acc : CInt) (s : σ), callsFrom E acc l s = callsFrom E' acc l s := by
  induction l with
  | nil => intro acc s; rfl
  | cons m ms ih =>
    intro acc s
    simp only [callsFrom]
    rw [h m (List.mem_cons_self m ms)]
    exact ih (fun x hx => h x (List.mem_cons_of_mem m hx)) _ _

theorem runList_congr {σ : Type} (E E' : Env σ) (l : List ModuleId)
    (h : ∀ m ∈ l, E m = E' m) (s : σ) : runList E l s = runList E' l s := by
  cases l with
  | nil => rfl
  | cons m ms =>
    simp only [runList]
    rw [h m (List.mem_cons_self m ms)]
    rw [callsFrom_congr E E' ms (fun x hx => h x (List.mem_cons_of_mem m hx))]

theorem callsFrom_fst_indep {σ : Type} (E : Env σ)
    (H : ∀ (m : ModuleId) (s s' : σ), (E m s).1 = (E m s').1) (l : List ModuleId) :
    ∀ (acc : CInt) (s s' : σ), (callsFrom E acc l s).1 = (callsFrom E acc l s').1 := by
  induction l with
  | nil => intro acc s s'; rfl
  | cons m ms ih =>
    intro acc s s'
    simp only [callsFrom]
    rw [H m s s']
    exact ih _ _ _

theorem callLog_append {σ : Type} (E : Env σ) (l₁ l₂ : List ModuleId) :
    ∀ s : σ, ∃ s₁ : σ, callLog E (l₁ ++ l₂) s = callLog E l₁ s ++ callLog E l₂ s₁ := by
  induction l₁ with
  | nil => intro s; exact ⟨s, rfl⟩
  | cons m ms ih =>
    intro s
    obtain ⟨s₁, hs₁⟩ := ih (E m s).2
    exact ⟨s₁, by simp [callLog, hs₁]⟩

theorem exactSum_append (a b : List Call) : exactSum (a ++ b) = exactSum a + exactSum b := by
  induction a with
  | nil => simp [exactSum]
  | cons c cs ih => simp [exactSum, ih, add_assoc]

theorem exactSum_callLog_nonneg {σ : Type} (E : Env σ)
    (hnn : ∀ (m : ModuleId) (s : σ), 0 ≤ (E m s).1.val) (l : List ModuleId) :
    ∀ s : σ, 0 ≤ exactSum (callLog E l s) := by
  induction l with
  | nil => intro s; simp [callLog, exactSum]
  | cons m ms ih =>
    intro s
    simp only [callLog, exactSum]
    have h1 := hnn m s
    have h2 := ih (E m s).2
    omega

theorem cascade_cons (V : Aggregator) : ∃ m ms, cascade V = m :: ms := by
  cases V <;> exact ⟨_, _, rfl⟩

theorem calls_eq_callLog {σ : Type} (E : Env σ) (V : Aggregator) (s : σ) :
    V.calls E s = callLog E (cascade V) s := by
  obtain ⟨m, ms, h⟩ := cascade_cons V
  unfold Aggregator.calls logOf
  rw [run_eq_runList, h]
  simp [runList, callsFrom_traced, callLog, traced]

theorem invoked_eq_cascade {σ : Type} (E : Env σ) (V : Aggregator) (s : σ) :
    V.invoked E s = cascade V := by
  unfold Aggregator.invoked
  rw [calls_eq_callLog, callLog_fst]

theorem run_returns {σ : Type} (E : Env σ) (V : Aggregator) (s : σ) :
    ∃ r, V.run E s = some r ∧ r.1.val = wrapInt (exactSum (V.calls E s)) := by
  obtain ⟨m, ms, h⟩ := cascade_cons V
  rw [run_eq_runList, calls_eq_callLog, h]
  refine ⟨_, rfl, ?_⟩
  rw [callsFrom_val]
  simp only [callLog, exactSum]

theorem Aggregator.mem_all_aggregators (V : Aggregator) : V ∈ Aggregator.all := by
  cases V <;> decide

theorem ModuleId.mem_all_modules (m : ModuleId) : m ∈ ModuleId.all := by
  cases m <;> decide

theorem cascade_no_mod_gl_4_6 (V : Aggregator) : ModuleId.mod_gl_4_6 ∉ cascade V := by
  have h : ∀ V ∈ Aggregator.all, ModuleId.mod_gl_4_6 ∉ cascade V := by decide
  exact h V V.mem_all_aggregators

theorem cascade_ordered (V : Aggregator) :
    (cascade V).head? = some ModuleId.mod_gl_1_0 ∧
      (cascade V).Pairwise ModuleId.precedes ∧ (cascade V).Nodup := by
  have h : ∀ V ∈ Aggregator.all, (cascade V).head? = some ModuleId.mod_gl_1_0 ∧
      (cascade V).Pairwise ModuleId.precedes ∧ (cascade V).Nodup := by decide
  exact h V V.mem_all_aggregators

theorem cascade_excludes_later (V : Aggregator) (m : ModuleId)
    (hv : Version.lt V.version m.version) : m ∉ cascade V := by
  have h : ∀ V ∈ Aggregator.all, ∀ m ∈ ModuleId.all,
      Version.lt V.version m.version → m ∉ cascade V := by decide
  exact h V V.mem_all_aggregators m m.mem_all_modules hv

theorem cascade_core_excludes_removed (V : Aggregator) (m : ModuleId)
    (hc : V.comp = false) (hv : Version.le (3, 1) V.version) (hm : m.removed = true) :
    m ∉ cascade V := by
  have h : ∀ V ∈ Aggregator.all, ∀ m ∈ ModuleId.all,
      V.comp = false → Version.le (3, 1) V.version → m.removed = true →
        m ∉ cascade V := by decide
  exact h V V.mem_all_aggregators m m.mem_all_modules hc hv hm

theorem run_congr {σ : Type} (E E' : Env σ) (V : Aggregator) (m : ModuleId)
    (hm : m ∉ cascade V) (hE : ∀ x, x ≠ m → E x = E' x) (s : σ) :
    V.run E s = V.run E' s := by
  rw [run_eq_runList, run_eq_runList]
  apply runList_congr
  intro x hx
  apply hE
  intro hxm
  exact hm (hxm ▸ hx)

theorem CInt.ext (a b : CInt) (h : a.val = b.val) : a = b := Subtype.ext h

theorem exactSum_callLog_mock (c : ModuleId → CInt) (l : List ModuleId) :
    exactSum (callLog (mock c) l ()) = (l.map fun m => (c m).val).sum := by
  induction l with
  | nil => rfl
  | cons m ms ih =>
    simp only [callLog, exactSum, List.map_cons, List.sum_cons]
    rw [← ih]
    rfl

theorem cascade_comp_perm (V W : Aggregator) (hV : V.comp = false) (hW : W.comp = true)
    (hvw : V.version = W.version) :
    (cascade W).Perm (cascade V ++ [ModuleId.mod_gl_1_0_rem, ModuleId.mod_gl_1_1_rem,
      ModuleId.mod_gl_1_3_rem, ModuleId.mod_gl_1_4_rem]) := by
  have h : ∀ V ∈ Aggregator.all, ∀ W ∈ Aggregator.all,
      V.comp = false → W.comp = true → V.version = W.version →
        (cascade W).Perm (cascade V ++ [ModuleId.mod_gl_1_0_rem, ModuleId.mod_gl_1_1_rem,
          ModuleId.mod_gl_1_3_rem, ModuleId.mod_gl_1_4_rem]) := by decide
  exact h V V.mem_all_aggregators W W.mem_all_aggregators hV hW hvw

theorem cascade_chain_extends (V₁ V₂ : Aggregator) (hc : sameChain V₁ V₂)
    (hlt : Version.lt V₁.version V₂.version) : cascade V₁ <+: cascade V₂ := by
  have h : ∀ V₁ ∈ Aggregator.all, ∀ V₂ ∈ Aggregator.all,
      sameChain V₁ V₂ → Version.lt V₁.version V₂.version →
        cascade V₁ <+: cascade V₂ := by decide
  exact h V₁ V₁.mem_all_aggregators V₂ V₂.mem_all_aggregators hc hlt

theorem run_twice {σ : Type} (E : Env σ)
    (H : ∀ (m : ModuleId) (s s' : σ), (E m s).1 = (E m s').1) (V : Aggregator) (s : σ) :
    ∃ r₁ r₂, V.run E s = some r₁ ∧ V.run E r₁.2 = some r₂ ∧ r₂.1 = r₁.1 := by
  obtain ⟨m, ms, h⟩ := cascade_cons V
  refine ⟨callsFrom E (E m s).1 ms (E m s).2, ?_⟩
  refine ⟨callsFrom E (E m (callsFrom E (E m s).1 ms (E m s).2).2).1 ms
    (E m (callsFrom E (E m s).1 ms (E m s).2).2).2, ?_, ?_, ?_⟩
  · rw [run_eq_runList, h]; rfl
  · rw [run_eq_runList, h]; rfl
  · rw [H m (callsFrom E (E m s).1 ms (E m s).2).2 s]
    exact callsFrom_fst_indep E H ms _ _ _

/-- C1 (the code departs from the claim). With `load_mod_gl_4_6` mocked to
report 3 failures and the 22 other module loaders 0, the 23 counts add up to 3
but `Load` returns 0: the call of `load_mod_gl_4_6` follows the `return`
statement of `load_gl_4_6_comp` and its count never reaches the result. When
any one of the 22 other module loaders reports the 3 failures instead, `Load`
returns 3. -/
theorem C1_Load_drops_mod_gl_4_6 :
    retVal (Load (mock (onlyAt ModuleId.mod_gl_4_6 (CInt.ofInt 3))) ()) = some 0 ∧
      (ModuleId.all.map fun m =>
        (onlyAt ModuleId.mod_gl_4_6 (CInt.ofInt 3) m).val).sum = 3 ∧
      ∀ m ∈ ModuleId.all, m ≠ ModuleId.mod_gl_4_6 →
        retVal (Load (mock (onlyAt m (CInt.ofInt 3))) ()) = some 3 := by
  set_option maxRecDepth 8192 in
  decide

/-- C2, as stated, fails: with `load_mod_gl_1_0` returning `INT_MAX` and
`load_mod_gl_1_0_rem` returning 1, the exact sum of the counts returned to
`load_gl_1_0` is 2147483648, which no `int` equals, and `load_gl_1_0` returns
-2147483648. -/
theorem C2_counterexample :
    retVal (load_gl_1_0 (mock overflowCounts) ()) = some (-2147483648) ∧
      exactSum (Aggregator.gl_1_0.calls (mock overflowCounts) ()) = 2147483648 ∧
      ∀ r : CInt, r.val ≠ 2147483648 := by
  refine ⟨by decide, by decide, ?_⟩
  intro r hr
  have h := r.property.2
  rw [hr] at h
  exact absurd h (by decide)

/-- C2, amended. Every version aggregator returns, and whenever the exact sum
of the counts returned by the module loaders it invokes lies in the range of
`int`, its result is that exact sum, each invoked module loader being called
once. -/
theorem C2_additivity {σ : Type} (E : Env σ) (V : Aggregator) (s : σ)
    (h : INT_MIN ≤ exactSum (V.calls E s) ∧ exactSum (V.calls E s) ≤ INT_MAX) :
    (V.invoked E s).Nodup ∧
      ∃ r, V.run E s = some r ∧ r.1.val = exactSum (V.calls E s) := by
  refine ⟨?_, ?_⟩
  · rw [invoked_eq_cascade]
    exact (cascade_ordered V).2.2
  · obtain ⟨r, hr, hv⟩ := run_returns E V s
    exact ⟨r, hr, by rw [hv, wrapInt_of_range _ h]⟩

/-- C2, the example of the claim: `load_gl_1_1` with its four module loaders
mocked to return 0, 2, 5, 0 meets the range condition and returns their exact
sum, which is 7. -/
theorem C2_additivity_witness :
    (INT_MIN ≤ exactSum (Aggregator.gl_1_1.calls (mock counts0250) ()) ∧
      exactSum (Aggregator.gl_1_1.calls (mock counts0250) ()) ≤ INT_MAX) ∧
    ((Aggregator.gl_1_1.invoked (mock counts0250) ()).Nodup ∧
      ∃ r, Aggregator.gl_1_1.run (mock counts0250) () = some r ∧
        r.1.val = exactSum (Aggregator.gl_1_1.calls (mock counts0250) ())) ∧
    exactSum (Aggregator.gl_1_1.calls (mock counts0250) ()) = 7 :=
  ⟨by decide, C2_additivity (mock counts0250) Aggregator.gl_1_1 () (by decide), by decide⟩

/-- C3. The `_WIN32` resolver returns the null pointer exactly when the address
returned by the driver query, read as a signed pointer-width integer, is one
of -1, 0, 1, 2, 3; for every other address it returns that address unchanged. -/
theorem C3_getProcAddress_sentinels (w : Nat) (wglGetProcAddress : String → ProcAddress)
    (name : String) :
    (win32.getProcAddress w wglGetProcAddress name = nullptr ↔
      (toPtrdiff w (wglGetProcAddress name) = -1 ∨
        toPtrdiff w (wglGetProcAddress name) = 0 ∨
        toPtrdiff w (wglGetProcAddress name) = 1 ∨
        toPtrdiff w (wglGetProcAddress name) = 2 ∨
        toPtrdiff w (wglGetProcAddress name) = 3)) ∧
    (¬ (toPtrdiff w (wglGetProcAddress name) = -1 ∨
        toPtrdiff w (wglGetProcAddress name) = 0 ∨
        toPtrdiff w (wglGetProcAddress name) = 1 ∨
        toPtrdiff w (wglGetProcAddress name) = 2 ∨
        toPtrdiff w (wglGetProcAddress name) = 3) →
      win32.getProcAddress w wglGetProcAddress name = wglGetProcAddress name) := by
  have h0 : toPtrdiff w 0 = 0 := by
    have hp : (0 : Nat) < 2 ^ (w - 1) := Nat.two_pow_pos (w - 1)
    simp [toPtrdiff, hp]
  unfold win32.getProcAddress
  by_cases hr : toPtrdiff w (wglGetProcAddress name) ≥ -1 ∧
      toPtrdiff w (wglGetProcAddress name) ≤ 3
  · simp only [hr, and_self, if_true, true_iff]
    constructor
    · omega
    · intro hn
      omega
  · simp only [hr, if_false]
    constructor
    · constructor
      · intro hz
        have hz' : wglGetProcAddress name = 0 := hz
        rw [hz', h0] at hr
        omega
      · intro hs
        omega
    · intro _
      trivial

/-- C3 on a 64-bit machine: the addresses 2^64 - 1 (read as -1) and 3 are
reported as not found, the address 4 is returned as found. -/
theorem C3_getProcAddress_sentinels_witness :
    win32.getProcAddress 64 (fun _ => 18446744073709551615) "glClear" = nullptr ∧
    win32.getProcAddress 64 (fun _ => 3) "glClear" = nullptr ∧
    win32.getProcAddress 64 (fun _ => 4) "glClear" = 4 :=
  ⟨(C3_getProcAddress_sentinels 64 (fun _ => 18446744073709551615) "glClear").1.2
      (Or.inl (by decide)),
    (C3_getProcAddress_sentinels 64 (fun _ => 3) "glClear").1.2
      (Or.inr (Or.inr (Or.inr (Or.inr (by decide))))),
    (C3_getProcAddress_sentinels 64 (fun _ => 4) "glClear").2 (by decide)⟩

/-- C4. A module loader `m` of a version above that of aggregator `V` is not
invoked by `V`, and `V` returns the same for any two sets of module loaders
that differ at `m` only; with the 2.0 module mocked to report 3 failures and
all others 0, `load_gl_1_5` returns 0. -/
theorem C4_later_modules_excluded {σ : Type} (E E' : Env σ) (V : Aggregator)
    (m : ModuleId) (s : σ) (hv : Version.lt V.version m.version)
    (hE : ∀ x, x ≠ m → E x = E' x) :
    V.run E s = V.run E' s ∧ m ∉ V.invoked E s ∧ m ∉ V.invoked E' s ∧
      retVal (load_gl_1_5 (mock (onlyAt ModuleId.mod_gl_2_0 (CInt.ofInt 3))) ()) =
        some 0 := by
  have hm := cascade_excludes_later V m hv
  refine ⟨run_congr E E' V m hm hE s, ?_, ?_, by decide⟩
  · rw [invoked_eq_cascade]; exact hm
  · rw [invoked_eq_cascade]; exact hm

/-- C4 at `load_gl_1_5` and the 2.0 module: the mock in which the 2.0 module
reports 3 failures and the all-zero mock differ at the 2.0 module only. -/
theorem C4_later_modules_excluded_witness :
    Version.lt Aggregator.gl_1_5.version ModuleId.mod_gl_2_0.version ∧
    (∀ x, x ≠ ModuleId.mod_gl_2_0 →
      mock (onlyAt ModuleId.mod_gl_2_0 (CInt.ofInt 3)) x = mock (fun _ => CInt.zero) x) ∧
    (Aggregator.gl_1_5.run (mock (onlyAt ModuleId.mod_gl_2_0 (CInt.ofInt 3))) () =
        Aggregator.gl_1_5.run (mock fun _ => CInt.zero) () ∧
      ModuleId.mod_gl_2_0 ∉
        Aggregator.gl_1_5.invoked (mock (onlyAt ModuleId.mod_gl_2_0 (CInt.ofInt 3))) () ∧
      ModuleId.mod_gl_2_0 ∉ Aggregator.gl_1_5.invoked (mock fun _ => CInt.zero) () ∧
      retVal (load_gl_1_5 (mock (onlyAt ModuleId.mod_gl_2_0 (CInt.ofInt 3))) ()) =
        some 0) :=
  ⟨by decide,
    fun x hx => by funext s; simp [mock, onlyAt, hx],
    C4_later_modules_excluded _ _ Aggregator.gl_1_5 ModuleId.mod_gl_2_0 () (by decide)
      (fun x hx => by funext s; simp [mock, onlyAt, hx])⟩

/-- C5. For a core aggregator `V` and the compatibility aggregator `W` of the
same version (3.1 through 4.6), under every assignment `c` of counts to the
module loaders, `W` returns what `V` returns plus the counts of the four
removed modules, the sum being taken in `int`; and under any module loaders
`W` invokes every module loader `V` invokes and all four removed modules. -/
theorem C5_comp_is_core_plus_removed {σ : Type} (c : ModuleId → CInt) (E : Env σ)
    (s : σ) (V W : Aggregator) (hV : V.comp = false) (hW : W.comp = true)
    (hvw : V.version = W.version) :
    (∃ rV rW, V.run (mock c) () = some rV ∧ W.run (mock c) () = some rW ∧
      rW.1 = rV.1 + c ModuleId.mod_gl_1_0_rem + c ModuleId.mod_gl_1_1_rem +
        c ModuleId.mod_gl_1_3_rem + c ModuleId.mod_gl_1_4_rem) ∧
    (∀ m ∈ V.invoked E s, m ∈ W.invoked E s) ∧
    ModuleId.mod_gl_1_0_rem ∈ W.invoked E s ∧ ModuleId.mod_gl_1_1_rem ∈ W.invoked E s ∧
    ModuleId.mod_gl_1_3_rem ∈ W.invoked E s ∧ ModuleId.mod_gl_1_4_rem ∈ W.invoked E s := by
  have hp := cascade_comp_perm V W hV hW hvw
  have hmem : ∀ m, m ∈ cascade W ↔ m ∈ cascade V ++ [ModuleId.mod_gl_1_0_rem,
      ModuleId.mod_gl_1_1_rem, ModuleId.mod_gl_1_3_rem, ModuleId.mod_gl_1_4_rem] :=
    fun m => hp.mem_iff
  rw [invoked_eq_cascade, invoked_eq_cascade]
  refine ⟨?_, ?_, ?_, ?_, ?_, ?_⟩
  · obtain ⟨rV, hrV, hvV⟩ := run_returns (mock c) V ()
    obtain ⟨rW, hrW, hvW⟩ := run_returns (mock c) W ()
    refine ⟨rV, rW, hrV, hrW, CInt.ext _ _ ?_⟩
    have hS : exactSum (W.calls (mock c) ()) =
        exactSum (V.calls (mock c) ()) + (c ModuleId.mod_gl_1_0_rem).val +
          (c ModuleId.mod_gl_1_1_rem).val + (c ModuleId.mod_gl_1_3_rem).val +
          (c ModuleId.mod_gl_1_4_rem).val := by
      rw [calls_eq_callLog, calls_eq_callLog, exactSum_callLog_mock, exactSum_callLog_mock,
        (hp.map _).sum_eq]
      simp only [List.map_append, List.sum_append, List.map_cons, List.map_nil,
        List.sum_cons, List.sum_nil]
      ring
    rw [CInt.add_val, CInt.add_val, CInt.add_val, CInt.add_val, hvW, hvV, hS]
    unfold wrapInt
    omega
  · intro m hm
    exact (hmem m).2 (List.mem_append_left _ hm)
  · exact (hmem _).2 (List.mem_append_right _ (by decide))
  · exact (hmem _).2 (List.mem_append_right _ (by decide))
  · exact (hmem _).2 (List.mem_append_right _ (by decide))
  · exact (hmem _).2 (List.mem_append_right _ (by decide))

/-- C5 at version 3.1, with the counts 0, 2, 5, 0 of `counts0250`. -/
theorem C5_comp_is_core_plus_removed_witness :
    Aggregator.gl_3_1.comp = false ∧ Aggregator.gl_3_1_comp.comp = true ∧
    Aggregator.gl_3_1.version = Aggregator.gl_3_1_comp.version ∧
    ((∃ rV rW, Aggregator.gl_3_1.run (mock counts0250) () = some rV ∧
        Aggregator.gl_3_1_comp.run (mock counts0250) () = some rW ∧
        rW.1 = rV.1 + counts0250 ModuleId.mod_gl_1_0_rem +
          counts0250 ModuleId.mod_gl_1_1_rem + counts0250 ModuleId.mod_gl_1_3_rem +
          counts0250 ModuleId.mod_gl_1_4_rem) ∧
      (∀ m ∈ Aggregator.gl_3_1.invoked countingEnv 0,
        m ∈ Aggregator.gl_3_1_comp.invoked countingEnv 0) ∧
      ModuleId.mod_gl_1_0_rem ∈ Aggregator.gl_3_1_comp.invoked countingEnv 0 ∧
      ModuleId.mod_gl_1_1_rem ∈ Aggregator.gl_3_1_comp.invoked countingEnv 0 ∧
      ModuleId.mod_gl_1_3_rem ∈ Aggregator.gl_3_1_comp.invoked countingEnv 0 ∧
      ModuleId.mod_gl_1_4_rem ∈ Aggregator.gl_3_1_comp.invoked countingEnv 0) :=
  ⟨rfl, rfl, rfl,
    C5_comp_is_core_plus_removed counts0250 countingEnv 0 Aggregator.gl_3_1
      Aggregator.gl_3_1_comp rfl rfl rfl⟩

/-- C6, as stated, fails: `load_gl_1_2` is neither a compatibility aggregator
nor `load_gl_1_0` or `load_gl_1_1`, yet it invokes the removed module
`load_mod_gl_1_0_rem` and returns 1 when that module reports 1 failure and 0
when it reports none; each of `load_gl_1_2 … load_gl_3_0` invokes it. -/
theorem C6_counterexample :
    Aggregator.gl_1_2.comp = false ∧ Aggregator.gl_1_2 ≠ Aggregator.gl_1_0 ∧
    Aggregator.gl_1_2 ≠ Aggregator.gl_1_1 ∧ ModuleId.mod_gl_1_0_rem.removed = true ∧
    retVal (load_gl_1_2 (mock (onlyAt ModuleId.mod_gl_1_0_rem (CInt.ofInt 1))) ()) =
      some 1 ∧
    retVal (load_gl_1_2 (mock fun _ => CInt.zero) ()) = some 0 ∧
    ∀ V ∈ [Aggregator.gl_1_2, Aggregator.gl_1_3, Aggregator.gl_1_4, Aggregator.gl_1_5,
        Aggregator.gl_2_0, Aggregator.gl_2_1, Aggregator.gl_3_0],
      ModuleId.mod_gl_1_0_rem ∈ V.invoked (mock fun _ => CInt.zero) () := by
  decide

/-- C6, amended. A version aggregator that is not a compatibility one and whose
version is at least 3.1 (that is, none of `load_gl_1_0 … load_gl_3_0`) invokes
no removed module loader, and returns the same for any two sets of module
loaders that differ at one removed module loader only. -/
theorem C6_core_excludes_removed {σ : Type} (E E' : Env σ) (V : Aggregator)
    (m : ModuleId) (s : σ) (hc : V.comp = false) (hv : Version.le (3, 1) V.version)
    (hm : m.removed = true) (hE : ∀ x, x ≠ m → E x = E' x) :
    V.run E s = V.run E' s ∧ m ∉ V.invoked E s ∧ m ∉ V.invoked E' s := by
  have h := cascade_core_excludes_removed V m hc hv hm
  refine ⟨run_congr E E' V m h hE s, ?_, ?_⟩
  · rw [invoked_eq_cascade]; exact h
  · rw [invoked_eq_cascade]; exact h

/-- C6, amended, at `load_gl_3_1` and `load_mod_gl_1_0_rem`. -/
theorem C6_core_excludes_removed_witness :
    Aggregator.gl_3_1.comp = false ∧ Version.le (3, 1) Aggregator.gl_3_1.version ∧
    ModuleId.mod_gl_1_0_rem.removed = true ∧
    (∀ x, x ≠ ModuleId.mod_gl_1_0_rem →
      mock (onlyAt ModuleId.mod_gl_1_0_rem (CInt.ofInt 1)) x =
        mock (fun _ => CInt.zero) x) ∧
    (Aggregator.gl_3_1.run (mock (onlyAt ModuleId.mod_gl_1_0_rem (CInt.ofInt 1))) () =
        Aggregator.gl_3_1.run (mock fun _ => CInt.zero) () ∧
      ModuleId.mod_gl_1_0_rem ∉
        Aggregator.gl_3_1.invoked (mock (onlyAt ModuleId.mod_gl_1_0_rem (CInt.ofInt 1))) () ∧
      ModuleId.mod_gl_1_0_rem ∉ Aggregator.gl_3_1.invoked (mock fun _ => CInt.zero) ()) :=
  ⟨rfl, by decide, rfl,
    fun x hx => by funext s; simp [mock, onlyAt, hx],
    C6_core_excludes_removed _ _ Aggregator.gl_3_1 ModuleId.mod_gl_1_0_rem () rfl
      (by decide) rfl (fun x hx => by funext s; simp [mock, onlyAt, hx])⟩

/-- C7. Let `V₁` and `V₂` be aggregators of the same profile chain with the
version of `V₁` below that of `V₂`, let every module loader return a
non-negative count, and let the exact sum of the counts returned to `V₂` not
exceed `INT_MAX` (so that no sum leaves the range of `int`). Then every module
loader invoked by `V₁` is invoked by `V₂`, both return, and the result of `V₂`
is at least the result of `V₁`. -/
theorem C7_monotonic_inclusion {σ : Type} (E : Env σ) (V₁ V₂ : Aggregator) (s : σ)
    (hc : sameChain V₁ V₂) (hlt : Version.lt V₁.version V₂.version)
    (hnn : ∀ (m : ModuleId) (x : σ), 0 ≤ (E m x).1.val)
    (hex : exactSum (V₂.calls E s) ≤ INT_MAX) :
    (∀ m ∈ V₁.invoked E s, m ∈ V₂.invoked E s) ∧
      ∃ r₁ r₂, V₁.run E s = some r₁ ∧ V₂.run E s = some r₂ ∧ r₁.1.val ≤ r₂.1.val := by
  obtain ⟨t, ht⟩ := cascade_chain_extends V₁ V₂ hc hlt
  constructor
  · rw [invoked_eq_cascade, invoked_eq_cascade, ← ht]
    intro m hm
    exact List.mem_append_left _ hm
  · obtain ⟨r₁, hr₁, hv₁⟩ := run_returns E V₁ s
    obtain ⟨r₂, hr₂, hv₂⟩ := run_returns E V₂ s
    refine ⟨r₁, r₂, hr₁, hr₂, ?_⟩
    rw [calls_eq_callLog] at hv₁ hv₂ hex
    rw [← ht] at hv₂ hex
    obtain ⟨s₁, hs₁⟩ := callLog_append E (cascade V₁) t s
    rw [hs₁, exactSum_append] at hv₂ hex
    have h1 := exactSum_callLog_nonneg E hnn (cascade V₁) s
    have h2 := exactSum_callLog_nonneg E hnn t s₁
    have hmin : INT_MIN ≤ 0 := by decide
    rw [wrapInt_of_range _ ⟨by omega, by omega⟩] at hv₁
    rw [wrapInt_of_range _ ⟨by omega, by omega⟩] at hv₂
    omega

/-- C7 at `load_gl_3_0` and `load_gl_3_1_comp` with module loaders that each
report one failure and count the calls in the storage. -/
theorem C7_monotonic_inclusion_witness :
    sameChain Aggregator.gl_3_0 Aggregator.gl_3_1_comp ∧
    Version.lt Aggregator.gl_3_0.version Aggregator.gl_3_1_comp.version ∧
    (∀ (m : ModuleId) (x : Nat), 0 ≤ (countingEnv m x).1.val) ∧
    exactSum (Aggregator.gl_3_1_comp.calls countingEnv 0) ≤ INT_MAX ∧
    ((∀ m ∈ Aggregator.gl_3_0.invoked countingEnv 0,
        m ∈ Aggregator.gl_3_1_comp.invoked countingEnv 0) ∧
      ∃ r₁ r₂, Aggregator.gl_3_0.run countingEnv 0 = some r₁ ∧
        Aggregator.gl_3_1_comp.run countingEnv 0 = some r₂ ∧ r₁.1.val ≤ r₂.1.val) :=
  ⟨by decide, by decide, fun _ _ => (by decide : (0 : Int) ≤ 1), by decide,
    C7_monotonic_inclusion countingEnv Aggregator.gl_3_0 Aggregator.gl_3_1_comp 0
      (by decide) (by decide) (fun _ _ => (by decide : (0 : Int) ≤ 1)) (by decide)⟩

/-- C9. When the count each module loader returns does not depend on the
function-pointer storage it is called on, every aggregator, and `Load`, called
a second time on the storage its first call left, returns the same count. -/
theorem C9_idempotent {σ : Type} (E : Env σ) (V : Aggregator) (s : σ)
    (H : ∀ (m : ModuleId) (x x' : σ), (E m x).1 = (E m x').1) :
    (∃ r₁ r₂, V.run E s = some r₁ ∧ V.run E r₁.2 = some r₂ ∧ r₂.1 = r₁.1) ∧
      ∃ r₁ r₂, Load E s = some r₁ ∧ Load E r₁.2 = some r₂ ∧ r₂.1 = r₁.1 :=
  ⟨run_twice E H V s, run_twice E H Aggregator.gl_4_6_comp s⟩

/-- C9 at `load_gl_2_0` with module loaders that each report one failure and
count the calls in the storage, so that the first call changes the storage. -/
theorem C9_idempotent_witness :
    (∀ (m : ModuleId) (x x' : Nat), (countingEnv m x).1 = (countingEnv m x').1) ∧
    ((∃ r₁ r₂, Aggregator.gl_2_0.run countingEnv 0 = some r₁ ∧
        Aggregator.gl_2_0.run countingEnv r₁.2 = some r₂ ∧ r₂.1 = r₁.1) ∧
      ∃ r₁ r₂, Load countingEnv 0 = some r₁ ∧ Load countingEnv r₁.2 = some r₂ ∧
        r₂.1 = r₁.1) :=
  ⟨fun _ _ _ => rfl, C9_idempotent countingEnv Aggregator.gl_2_0 0 (fun _ _ _ => rfl)⟩

/-- C10. In `load_gl_4_6` and `load_gl_4_6_comp` the call of `load_mod_gl_4_6`
follows the `return` statement: under any module loaders and from any storage
`load_gl_4_6` yields exactly what `load_gl_4_5` yields, `load_gl_4_6_comp`
exactly what `load_gl_4_5_comp` yields, and neither an aggregator nor `Load`
invokes `load_mod_gl_4_6`. -/
theorem C10_mod_gl_4_6_unreachable {σ : Type} (E : Env σ) (s : σ) :
    load_gl_4_6 E s = load_gl_4_5 E s ∧
      load_gl_4_6_comp E s = load_gl_4_5_comp E s ∧
      (∀ V : Aggregator, ModuleId.mod_gl_4_6 ∉ V.invoked E s) ∧
      ModuleId.mod_gl_4_6 ∉ (logOf (Load (traced E)) s).map Prod.fst := by
  refine ⟨rfl, rfl, ?_, ?_⟩
  · intro V
    rw [invoked_eq_cascade]
    exact cascade_no_mod_gl_4_6 V
  · have h := invoked_eq_cascade E Aggregator.gl_4_6_comp s
    have h' : (logOf (Load (traced E)) s).map Prod.fst =
        Aggregator.gl_4_6_comp.invoked E s := rfl
    rw [h', h]
    exact cascade_no_mod_gl_4_6 _

end gll
